import Mathlib

/-!
Buyer session orchestration (pkg/buyer/buyer.go)

A shallow embedding of the buyer-side session life cycle.  Every function of
`buyer.go` that is modelled here keeps its name.  Collaborators living outside
the file (wallet client, matcher client, contexts, timers) are represented by
environment records holding their answers; every call of a reporter method, a
collaborator or a probe is recorded as an event, in program order.  The
watchers that `waitForSession` launches are represented by the case its final
`select` takes.  Error messages built with format verbs are kept as their
format strings.
-/

namespace Buyer

/-! ## Errors -/

/-- Go error values as far as the buyer inspects them: an error built by a
collaborator or by `errors.Errorf`, an error annotated by `errors.Wrap` or
`errors.Wrapf`, and the struct `unreportableError` wrapping an error. -/
inductive GoError where
  | base (msg : String)
  | wrap (cause : GoError) (msg : String)
  | unreportableError (e : GoError)
  deriving DecidableEq, Repr

/-- The type assertion `err.(unreportableError)`: it looks at the dynamic type
of the value only and does not unwrap annotations. -/
def GoError.isUnreportable : GoError → Bool
  | .unreportableError _ => true
  | _ => false

/-- How a call ends in the model: it returned (with an error or with nil), or
the polling budget of the model ran out while the call was still looping. -/
inductive Outcome where
  | returned (err : Option GoError)
  | pending
  deriving DecidableEq, Repr

/-! ## Hashes and transactions -/

/-- A chain hash, as its bytes. -/
abbrev Hash := List Nat

/-- The size of a chain hash in bytes (`chainhash.HashSize`). -/
def HashSize : Nat := 32

/-- The library function `chainhash.NewHash`: it fails unless exactly
`HashSize` bytes are given. -/
def NewHash (newHash : List Nat) : Except GoError Hash :=
  if newHash.length = HashSize then .ok newHash
  else .error (.base "invalid hash length")

/-- The library method `(*Hash).IsEqual` on two hash pointers (`none` is the nil
pointer). -/
def IsEqual (hash target : Option Hash) : Bool :=
  match hash, target with
  | none, none => true
  | none, some _ => false
  | some _, none => false
  | some a, some b => a == b

/-- A `wire.OutPoint`. -/
structure OutPoint where
  hash : Hash
  index : Nat
  tree : Nat
  deriving DecidableEq, Repr

/-- A `wire.TxIn`, reduced to the outpoint it spends. -/
structure TxIn where
  PreviousOutPoint : OutPoint
  deriving DecidableEq, Repr

/-- A `wire.MsgTx` as the buyer observes it: its hash (`TxHash()`) and the
result of serialising it (`Bytes()`), which may fail. -/
structure MsgTx where
  TxHash : Hash
  Bytes : Except GoError (List Nat)

/-- An entry of `splitticket.UtxoMap`. -/
structure UtxoEntry where
  Value : Int
  deriving DecidableEq, Repr

/-- One element of `Session.participants`. -/
structure buyerSessionParticipant where
  amount : Int
  ticket : MsgTx
  revocation : MsgTx

/-- The fields of `Session` that the modelled functions read.  Pointer fields
that the code dereferences unconditionally (`selectedTicket`, `fundedSplitTx`,
`selectedRevocation`, `mainchainHash`) are held as values. -/
structure Session where
  ID : Nat
  Amount : Int
  Fee : Int
  PoolFee : Int
  TicketPrice : Int
  mainchainHash : Hash
  mainchainHeight : Nat
  nbParticipants : Nat
  splitChange : Option Int
  splitInputs : List TxIn
  participants : List buyerSessionParticipant
  splitTxUtxoMap : OutPoint → Option UtxoEntry
  selectedTicket : MsgTx
  fundedSplitTx : MsgTx
  selectedRevocation : MsgTx

/-! ## waitForPublishedTxs -/

/-- What `waitForPublishedTxs` does to the outside, in order: the two wallet
probes with their answers, the three reporter notifications and the 250 ms
sleep closing every poll. -/
inductive PubEvent where
  | PublishedSplitTx (answer : Bool)
  | PublishedTicketTx (answer : Option Hash)
  | reportSplitPublished
  | reportRightTicketPublished
  | reportWrongTicketPublished (ticket : Option Hash)
  | sleep250ms
  deriving DecidableEq, Repr

/-- The surroundings of one call of `waitForPublishedTxs`: whether `ctx.Done()`
is ready at the n-th pass through the `select`, what `ctx.Err()` then gives, and
the answers of the n-th call of either wallet probe. -/
structure PubEnv where
  ctxDone : Nat → Bool
  ctxErr : Option GoError
  PublishedSplitTx : Nat → Bool
  PublishedTicketTx : Nat → Option Hash

/-- The local variables of `waitForPublishedTxs`, together with the number of
passes through the `select` and of probe calls made so far. -/
structure PubState where
  notifiedSplit : Bool
  notifiedTicket : Bool
  correctTicket : Bool
  polls : Nat
  splitCalls : Nat
  ticketCalls : Nat
  deriving DecidableEq, Repr

/-- Lines 566-569: the split probe is called only while the split has not been
notified. -/
def pollSplit (env : PubEnv) (st : PubState) : PubState × List PubEvent :=
  if !st.notifiedSplit then
    if env.PublishedSplitTx st.splitCalls then
      ({ st with splitCalls := st.splitCalls + 1, notifiedSplit := true },
        [.PublishedSplitTx true, .reportSplitPublished])
    else
      ({ st with splitCalls := st.splitCalls + 1 }, [.PublishedSplitTx false])
  else (st, [])

/-- Lines 571-580: the ticket probe is called once to test for nil and, when it
answered non-nil, a second time to fetch the hash that is compared and
reported. -/
def pollTicket (env : PubEnv) (expectedTicketHash : Hash) (st : PubState) :
    PubState × List PubEvent :=
  if !st.notifiedTicket then
    let first := env.PublishedTicketTx st.ticketCalls
    if first.isSome then
      let publishedHash := env.PublishedTicketTx (st.ticketCalls + 1)
      if IsEqual (some expectedTicketHash) publishedHash then
        ({ st with ticketCalls := st.ticketCalls + 2, correctTicket := true,
                   notifiedTicket := true },
          [.PublishedTicketTx first, .PublishedTicketTx publishedHash,
           .reportRightTicketPublished])
      else
        ({ st with ticketCalls := st.ticketCalls + 2, notifiedTicket := true },
          [.PublishedTicketTx first, .PublishedTicketTx publishedHash,
           .reportWrongTicketPublished publishedHash])
    else
      ({ st with ticketCalls := st.ticketCalls + 1 }, [.PublishedTicketTx first])
  else (st, [])

/-- The error returned when `ctx.Done()` fires (lines 558-564). -/
def ctxDoneError (ctxErr : Option GoError) : GoError :=
  match ctxErr with
  | some e => .wrap e "context error while waiting forpublished txs"
  | none => .base "context done while waiting for publishedtxs"

/-- The error of line 587. -/
def wrongTicketError : GoError := .base "wrong ticket published to the network"

/-- Lines 586-590, after the loop. -/
def pubResult (st : PubState) : Option GoError :=
  if !st.correctTicket then some wrongTicketError else none

/-- The loop of lines 555-584.  `fuel` bounds the number of polls the model
follows; when it runs out with the loop still going the outcome is `pending`. -/
def pubLoop (env : PubEnv) (expectedTicketHash : Hash) :
    Nat → PubState → Outcome × List PubEvent
  | 0, st =>
    if !st.notifiedSplit || !st.notifiedTicket then (.pending, [])
    else (.returned (pubResult st), [])
  | fuel + 1, st =>
    if !st.notifiedSplit || !st.notifiedTicket then
      if env.ctxDone st.polls then (.returned (some (ctxDoneError env.ctxErr)), [])
      else
        let s1 := pollSplit env st
        let s2 := pollTicket env expectedTicketHash s1.1
        let rest := pubLoop env expectedTicketHash fuel { s2.1 with polls := st.polls + 1 }
        (rest.1, s1.2 ++ s2.2 ++ [.sleep250ms] ++ rest.2)
    else (.returned (pubResult st), [])

/-- The function `waitForPublishedTxs` (lines 546-591). -/
def waitForPublishedTxs (env : PubEnv) (session : Session) (fuel : Nat) :
    Outcome × List PubEvent :=
  pubLoop env session.selectedTicket.TxHash fuel ⟨false, false, false, 0, 0, 0⟩

/-- The events of the polls made while only the split is still awaited and its
probe answers false `d` more times before answering true. -/
def splitWaitTrace : Nat → List PubEvent
  | 0 => [.PublishedSplitTx true, .reportSplitPublished, .sleep250ms]
  | d + 1 => [.PublishedSplitTx false, .sleep250ms] ++ splitWaitTrace d

/-- Whether an event is a call of the split probe. -/
def PubEvent.isSplitProbe : PubEvent → Bool
  | .PublishedSplitTx _ => true
  | _ => false

/-- Whether an event is a wrong-ticket notification. -/
def PubEvent.isWrongTicket : PubEvent → Bool
  | .reportWrongTicketPublished _ => true
  | _ => false

/-- The notification sent for the hash fetched by the second ticket probe. -/
def ticketReport (expectedTicketHash : Hash) (publishedHash : Option Hash) : PubEvent :=
  if IsEqual (some expectedTicketHash) publishedHash then .reportRightTicketPublished
  else .reportWrongTicketPublished publishedHash

/-- The events of a whole call in which the context never ends, the ticket probe
answers non-nil at once and the split probe answers true at its call number
`n` for the first time. -/
def pubTrace (expectedTicketHash : Hash) (first publishedHash : Option Hash) :
    Nat → List PubEvent
  | 0 => [.PublishedSplitTx true, .reportSplitPublished, .PublishedTicketTx first,
          .PublishedTicketTx publishedHash, ticketReport expectedTicketHash publishedHash,
          .sleep250ms]
  | n + 1 => [.PublishedSplitTx false, .PublishedTicketTx first,
          .PublishedTicketTx publishedHash, ticketReport expectedTicketHash publishedHash,
          .sleep250ms] ++ splitWaitTrace n

/-! ## checkMatcherWalletBlockchainSync -/

/-- What `checkMatcherWalletBlockchainSync` does, in order: the case taken by
the `select` (`ctxDone` or `tick`), every call of `checkSync` with its result,
the jitter sleep with its length in seconds, and the deferred `ticker.Stop()`. -/
inductive SyncEvent where
  | ctxDone
  | tick
  | checkSync (err : Option GoError)
  | sleep (seconds : Nat)
  | tickerStop
  deriving DecidableEq, Repr

/-- The surroundings of one call of `checkMatcherWalletBlockchainSync`.  The
function waits at every `select` and at every jitter sleep; waits are numbered
in program order.  `ctxCanceledBy w` tells whether `waitCtx` is canceled by the
end of wait `w`, `tickChosen w` whether the `select` at wait `w` takes the ticker
case when the context is done as well (Go chooses among ready cases at random).
`status` and `currentChainInfo` give the n-th answer of the matcher (the bytes
of `MainchainHash`) and of the wallet (the pointer `bestBlockHash`), and `Intn`
the n-th value of `unsafe_rand.Intn(10)`. -/
structure SyncEnv where
  ctxCanceledBy : Nat → Bool
  tickChosen : Nat → Bool
  status : Nat → Except GoError (List Nat)
  currentChainInfo : Nat → Except GoError (Option Hash)
  Intn : Nat → Nat

/-- Counters of the waits and collaborator calls made so far. -/
structure SyncState where
  waits : Nat
  statusCalls : Nat
  chainInfoCalls : Nat
  randCalls : Nat
  deriving DecidableEq, Repr

/-- The error of lines 429-430. -/
def hashMismatchError : GoError :=
  .base "matcher mainchain hash different than wallet mainchain hash"

/-- The closure `checkSync` (lines 412-434): its result and the counters after
it.  The wallet is asked only when the matcher answered. -/
def checkSync (env : SyncEnv) (st : SyncState) : Option GoError × SyncState :=
  match env.status st.statusCalls with
  | .error err =>
    (some (.wrap err "error checking status of matcher"),
      { st with statusCalls := st.statusCalls + 1 })
  | .ok mainchainHash =>
    let st1 := { st with statusCalls := st.statusCalls + 1,
                         chainInfoCalls := st.chainInfoCalls + 1 }
    match env.currentChainInfo st.chainInfoCalls with
    | .error err => (some (.wrap err "error checking wallet chain info"), st1)
    | .ok bestBlockHash =>
      match NewHash mainchainHash with
      | .error err => (some (.wrap err "matcher sent an invalid hash"), st1)
      | .ok hashMatcher =>
        if !IsEqual (some hashMatcher) bestBlockHash then (some hashMismatchError, st1)
        else (none, st1)

/-- The case the `select` of line 437 takes at wait `w`: the ticker case when
the context is not canceled (the ticker fires every five minutes), otherwise the
case chosen among the two ready ones. -/
def selectTick (env : SyncEnv) (w : Nat) : Bool :=
  !env.ctxCanceledBy w || env.tickChosen w

/-- The loop of lines 436-460; `fuel` bounds the number of passes the model
follows. -/
def syncLoop (env : SyncEnv) : Nat → SyncState → Outcome × List SyncEvent
  | 0, _ => (.pending, [])
  | fuel + 1, st =>
    if selectTick env st.waits then
      let st0 := { st with waits := st.waits + 1 }
      let c1 := checkSync env st0
      match c1.1 with
      | none =>
        let rest := syncLoop env fuel c1.2
        (rest.1, [.tick, .checkSync none] ++ rest.2)
      | some err1 =>
        let sleeptime := 10 + env.Intn c1.2.randCalls % 10
        let st2 := { c1.2 with randCalls := c1.2.randCalls + 1, waits := c1.2.waits + 1 }
        let c2 := checkSync env st2
        match c2.1 with
        | some err =>
          (.returned (some err),
            [.tick, .checkSync (some err1), .sleep sleeptime, .checkSync (some err),
             .tickerStop])
        | none =>
          let rest := syncLoop env fuel c2.2
          (rest.1, [.tick, .checkSync (some err1), .sleep sleeptime, .checkSync none]
            ++ rest.2)
    else (.returned none, [.ctxDone, .tickerStop])

/-- The function `checkMatcherWalletBlockchainSync` (lines 408-461). -/
def checkMatcherWalletBlockchainSync (env : SyncEnv) (fuel : Nat) :
    Outcome × List SyncEvent :=
  syncLoop env fuel ⟨0, 0, 0, 0⟩

/-- One completed pass of the loop: the first check succeeded, or it failed
with `first` and the recheck after `seconds` of sleep succeeded. -/
inductive SyncRound where
  | inSync
  | recovered (first : GoError) (seconds : Nat)
  deriving DecidableEq, Repr

/-- The events of a completed pass. -/
def SyncRound.events : SyncRound → List SyncEvent
  | .inSync => [.tick, .checkSync none]
  | .recovered first seconds =>
    [.tick, .checkSync (some first), .sleep seconds, .checkSync none]

/-- How a run of the loop ends: the `select` took the canceled context, two
consecutive checks failed, or the run is still going. -/
inductive SyncEnding where
  | canceled
  | outOfSync (first : GoError) (seconds : Nat) (second : GoError)
  | running
  deriving DecidableEq, Repr

/-- The events of the last, ending pass. -/
def SyncEnding.events : SyncEnding → List SyncEvent
  | .canceled => [.ctxDone, .tickerStop]
  | .outOfSync first seconds second =>
    [.tick, .checkSync (some first), .sleep seconds, .checkSync (some second), .tickerStop]
  | .running => []

/-- The outcome of the call for each ending. -/
def SyncEnding.outcome : SyncEnding → Outcome
  | .canceled => .returned none
  | .outOfSync _ _ second => .returned (some second)
  | .running => .pending

/-- Whether the jitter sleeps of a pass lie in the window of 10 to 19 seconds. -/
def SyncRound.jitterOk : SyncRound → Bool
  | .inSync => true
  | .recovered _ seconds => decide (10 ≤ seconds ∧ seconds < 20)

/-- Whether the jitter sleep of the ending pass lies in the same window. -/
def SyncEnding.jitterOk : SyncEnding → Bool
  | .outOfSync _ seconds _ => decide (10 ≤ seconds ∧ seconds < 20)
  | _ => true

/-- The events of a sequence of completed passes. -/
def roundsEvents : List SyncRound → List SyncEvent
  | [] => []
  | r :: rs => r.events ++ roundsEvents rs

/-- The counters after the `select` of a pass has taken the ticker case. -/
def afterSelect (st : SyncState) : SyncState :=
  { st with waits := st.waits + 1 }

/-- The counters after the jitter sleep that follows a failed first check. -/
def afterJitter (st : SyncState) : SyncState :=
  { st with randCalls := st.randCalls + 1, waits := st.waits + 1 }

/-- The passes `rounds` and the ending `ending` are what the answers of the
environment dictate for a loop entered with counters `st` and followed for
`fuel` passes: every pass is a tick taken by the `select`; a pass `inSync` is
one whose check succeeded on the answers asked for at that point; a pass
`recovered first seconds` is one whose check failed with `first`, whose sleep
lasted `seconds` as drawn from `Intn`, and whose recheck, asked anew after the
sleep, succeeded; the loop ends `canceled` when the `select` takes the done
context, `outOfSync` when a check and its recheck both failed, and is `running`
only when all `fuel` passes were completed. -/
def Follows (env : SyncEnv) : List SyncRound → SyncEnding → Nat → SyncState → Prop
  | [], .running, fuel, _ => fuel = 0
  | [], .canceled, fuel, st => 0 < fuel ∧ selectTick env st.waits = false
  | [], .outOfSync first seconds second, fuel, st =>
    0 < fuel ∧ selectTick env st.waits = true ∧
    (checkSync env (afterSelect st)).1 = some first ∧
    seconds = 10 + env.Intn (checkSync env (afterSelect st)).2.randCalls % 10 ∧
    (checkSync env (afterJitter (checkSync env (afterSelect st)).2)).1 = some second
  | .inSync :: rounds, ending, fuel, st =>
    0 < fuel ∧ selectTick env st.waits = true ∧
    (checkSync env (afterSelect st)).1 = none ∧
    Follows env rounds ending (fuel - 1) (checkSync env (afterSelect st)).2
  | .recovered first seconds :: rounds, ending, fuel, st =>
    0 < fuel ∧ selectTick env st.waits = true ∧
    (checkSync env (afterSelect st)).1 = some first ∧
    seconds = 10 + env.Intn (checkSync env (afterSelect st)).2.randCalls % 10 ∧
    (checkSync env (afterJitter (checkSync env (afterSelect st)).2)).1 = none ∧
    Follows env rounds ending (fuel - 1)
      (checkSync env (afterJitter (checkSync env (afterSelect st)).2)).2

/-- A matcher and a wallet that disagree on the chain tip at the first check,
under a context that is canceled during the second wait of the run, which is
the jitter sleep following that failed check; the recheck then finds the
matcher call failing with the cancellation of its context. -/
def canceledDuringJitterEnv : SyncEnv where
  ctxCanceledBy := fun w => decide (1 ≤ w)
  tickChosen := fun _ => false
  status := fun k => if k = 0 then .ok (List.replicate 32 0)
    else .error (.base "context canceled")
  currentChainInfo := fun _ => .ok (some (List.replicate 32 1))
  Intn := fun _ => 3

/-- A matcher and a wallet that disagree on the chain tip at every check, under
a context that is never canceled. -/
def outOfSyncEnv : SyncEnv where
  ctxCanceledBy := fun _ => false
  tickChosen := fun _ => false
  status := fun _ => .ok (List.replicate 32 0)
  currentChainInfo := fun _ => .ok (some (List.replicate 32 1))
  Intn := fun _ => 25

/-- A matcher and a wallet that disagree at the first check and agree from the
second check on; the context is canceled during the fourth wait. -/
def recoveringEnv : SyncEnv where
  ctxCanceledBy := fun w => decide (3 ≤ w)
  tickChosen := fun _ => false
  status := fun _ => .ok (List.replicate 32 0)
  currentChainInfo := fun k => .ok (some (List.replicate 32 (if k = 0 then 1 else 0)))
  Intn := fun _ => 7

/-! ## saveSession -/

/-- The fields of `Config` that steer the modelled functions.  `WalletConn`,
`MatcherConn` and `SaveSessionWriter` tell whether the field is non-nil. -/
structure Config where
  WalletHost : String
  WalletConn : Bool
  MatcherConn : Bool
  UtxosFromDcrdata : Bool
  SkipReportErrorsToSvc : Bool
  SkipWaitPublishedTxs : Bool
  SaveSessionWriter : Bool

/-- What `saveSession` does to the outside, in order.  `out` stands for one
call of the local closure `out`, named by its format string; `hexWrite` for one
call of `hexWriter.Write`. -/
inductive SaveEvent where
  | stat
  | mkdirAll
  | openFile
  | StartWritingSession (ticketHash : Hash)
  | out (format : String)
  | hexWrite (bytes : List Nat)
  | flush
  | sync
  | close
  | reportSavedSession
  | SessionWritingFinished
  deriving DecidableEq, Repr

/-- The answer of `os.Stat` on the session directory. -/
inductive StatResult where
  | found
  | notExist
  | failed (err : GoError)
  deriving DecidableEq, Repr

/-- The file system as `saveSession` meets it. -/
structure FsEnv where
  stat : StatResult
  mkdirAll : Option GoError
  openFile : Option GoError

/-- Lines 619-637: the session directory is created when missing and the
session file opened. -/
def openSessionFile (fs : FsEnv) : Option GoError × List SaveEvent :=
  match fs.stat with
  | .failed err => (some err, [.stat])
  | .found =>
    match fs.openFile with
    | some err => (some err, [.stat, .openFile])
    | none => (none, [.stat, .openFile])
  | .notExist =>
    match fs.mkdirAll with
    | some err => (some err, [.stat, .mkdirAll])
    | none =>
      match fs.openFile with
      | some err => (some err, [.stat, .mkdirAll, .openFile])
      | none => (none, [.stat, .mkdirAll, .openFile])

/-- Lines 674-733: the general information, voter selection, participation and
final transactions sections. -/
def sessionOuts (session : Session) (ticketBytes splitBytes revocationBytes : List Nat) :
    List SaveEvent :=
  [.out "====== General Info ======\n",
   .out "Session ID = %s\n",
   .out "Ending Time = %s\n",
   .out "Mainchain Hash = %s\n",
   .out "Mainchain Height = %d\n",
   .out "Ticket Price = %s\n",
   .out "Number of Participants = %d\n",
   .out "My Index = %d\n",
   .out "My Secret Number = %s\n",
   .out "My Secret Hash = %s\n",
   .out "Commitment Amount = %s (%.2f%%)\n",
   .out "Ticket Fee = %s (total = %s)\n",
   .out "Pool Fee = %s (total = %s)\n",
   .out "Split Transaction hash = %s\n",
   .out "Final Ticket Hash = %s\n",
   .out "Final Revocation Hash = %s\n",
   .out "\n",
   .out "====== Voter Selection ======\n",
   .out "Participant Amounts = %v\n",
   .out "Secret Hashes = %v\n",
   .out "Voter Addresses = %v\n",
   .out "Voter Lottery Commitment Hash = %s\n",
   .out "Secret Numbers = %v\n",
   .out "Selected Coin = %s\n",
   .out "Selected Voter Index = %d\n",
   .out "\n",
   .out "====== My Participation Info ======\n",
   .out "Total input amount: %s\n",
   .out (if session.splitChange.isSome then "Change amount: %s\n"
         else "Change amount: [none]\n"),
   .out "Commitment Address: %s\n",
   .out "Split Output Address: %s\n",
   .out "Vote Address: %s\n",
   .out "Pool Fee Address: %s\n",
   .out "\n",
   .out "====== Final Transactions ======\n",
   .out "== Split Transaction ==\n",
   .hexWrite splitBytes,
   .out "\n\n",
   .out "== Ticket ==\n",
   .hexWrite ticketBytes,
   .out "\n\n",
   .out "== Revocation ==\n",
   .hexWrite revocationBytes,
   .out "\n\n",
   .out "\n",
   .out "====== My Split Inputs ======\n"]
  ++ session.splitInputs.map (fun _ => .out "Outpoint %d = %s\n")
  ++ [.out "\n", .out "====== Participant Intermediate Information ======\n"]

/-- Lines 757-766: the lines written for one participant. -/
def participantOuts : List SaveEvent :=
  [.out "\n",
   .out "== Participant %d ==\n",
   .out "Amount = %s\n",
   .out "Secret Hash = %s\n",
   .out "Secret Number = %s\n",
   .out "Vote Address = %s\n",
   .out "Vote PkScript = %s\n",
   .out "Pool PkScript = %s\n",
   .out "Ticket = %s\n",
   .out "Revocation = %s\n"]

/-- The loop of lines 743-767: it returns as soon as a participant's ticket or
revocation fails to serialise. -/
def saveParticipants : List buyerSessionParticipant → Option GoError × List SaveEvent
  | [] => (none, [])
  | p :: ps =>
    match p.ticket.Bytes with
    | .error err => (some (.wrap err "error encoding participant %d ticket"), [])
    | .ok _ =>
      match p.revocation.Bytes with
      | .error err => (some (.wrap err "error encoding participant %d revocation"), [])
      | .ok _ =>
        let rest := saveParticipants ps
        (rest.1, participantOuts ++ rest.2)

/-- Lines 659-767, common to both sinks. -/
def saveBody (session : Session) (ticketBytes : List Nat) : Option GoError × List SaveEvent :=
  match session.fundedSplitTx.Bytes with
  | .error err => (some err, [])
  | .ok splitBytes =>
    match session.selectedRevocation.Bytes with
    | .error err => (some err, [])
    | .ok revocationBytes =>
      let parts := saveParticipants session.participants
      (parts.1, sessionOuts session ticketBytes splitBytes revocationBytes ++ parts.2)

/-- The function `saveSession` (lines 601-778).  With a file, the deferred
flush, sync and close run on every return that follows the opening; with a
`SessionWriter`, `SessionWritingFinished` is called at line 774 only. -/
def saveSession (fs : FsEnv) (session : Session) (cfg : Config) :
    Option GoError × List SaveEvent :=
  match session.selectedTicket.Bytes with
  | .error err => (some err, [])
  | .ok ticketBytes =>
    if !cfg.SaveSessionWriter then
      let opened := openSessionFile fs
      match opened.1 with
      | some err => (some err, opened.2)
      | none =>
        let body := saveBody session ticketBytes
        match body.1 with
        | some err => (some err, opened.2 ++ body.2 ++ [.flush, .sync, .close])
        | none =>
          (none, opened.2 ++ body.2 ++ [.flush, .sync, .reportSavedSession]
            ++ [.flush, .sync, .close])
    else
      let body := saveBody session ticketBytes
      match body.1 with
      | some err =>
        (some err, [.StartWritingSession session.selectedTicket.TxHash] ++ body.2)
      | none =>
        (none, [.StartWritingSession session.selectedTicket.TxHash] ++ body.2
          ++ [.SessionWritingFinished])

/-! ## buySplitTicketInSession -/

/-- The stages named in `buyer.go`. -/
inductive Stage where
  | StageStarting
  | StageConnectingToWallet
  | StageConnectingToDcrd
  | StageConnectingToDcrdata
  | StageConnectingToMatcher
  | StageFindingMatches
  | StageMatchesFound
  | StageGeneratingOutputs
  | StageOutputsGenerated
  | StageGeneratingTicket
  | StageTicketGenerated
  | StageSigningTicket
  | StageTicketSigned
  | StageFundingTicket
  | StageTicketFunded
  | StageFundingSplitTx
  | StageSplitTxFunded
  | StageSkippedWaiting
  | StageSessionEndedSuccessfully
  deriving DecidableEq, Repr

/-- The operations called by the coordinator and the executor. -/
inductive Op where
  | FindListeningWallets
  | connectToWallet
  | checkNetwork
  | testVoteAddress
  | testPassphrase
  | testFunds
  | connectToDecredNode
  | isDcrdataOnline
  | connectToMatcherService
  | status
  | NewAmount
  | currentChainInfo
  | generateOutputs
  | generateTicket
  | signTransactions
  | fundTicket
  | monitorSession
  | fundSplitTx
  | saveSession
  | waitForPublishedTxs
  deriving DecidableEq, Repr

/-- Everything a purchase attempt does to the outside, in order: reporter calls,
every operation called (`call`) and how it returned (`ret`, with whether it
failed), what `saveSession` and `waitForPublishedTxs` do in between, the error
report to the matcher, the cancel functions and the closing of both clients. -/
inductive Event where
  | reportStage (stage : Stage)
  | reportMatcherStatus
  | reportBuyingError (err : GoError)
  | call (op : Op)
  | ret (op : Op) (failed : Bool)
  | save (e : SaveEvent)
  | pub (e : PubEvent)
  | setupCancel
  | waitCancel
  | cancelBuy
  | sendErrorReport (id : Nat) (err : GoError)
  | mcClose
  | wcClose
  deriving DecidableEq, Repr

/-- What `wc.currentChainInfo` answers. -/
structure ChainInfo where
  bestBlockHash : Option Hash
  bestBlockHeight : Nat
  ticketPrice : Int

/-- The collaborators of `buySplitTicketInSession`.  Each client operation gets
the session and answers with an error or nil and the session as it leaves it;
`fs` and `pub` are the surroundings of `saveSession` and `waitForPublishedTxs`
(whose context is `ctxBuy`). -/
structure SessionEnv where
  currentChainInfo : Except GoError ChainInfo
  generateOutputs : Session → Option GoError × Session
  generateTicket : Session → Option GoError × Session
  signTransactions : Session → Option GoError × Session
  fundTicket : Session → Option GoError × Session
  monitorSession : Session → Option GoError × Session
  fundSplitTx : Session → Option GoError × Session
  fs : FsEnv
  pub : PubEnv

/-- The result of the executor: how it ended, the session as it left it, and
its events. -/
abbrev Run := Outcome × Session × List Event

/-- Puts events in front of those of a run. -/
def Run.after (events : List Event) (r : Run) : Run :=
  (r.1, r.2.1, events ++ r.2.2)

/-- Lines 531-543: with `SkipWaitPublishedTxs` the session ends at once,
otherwise after `waitForPublishedTxs`, whose error is wrapped and tagged. -/
def finishSession (env : SessionEnv) (cfg : Config) (session : Session) (fuel : Nat) : Run :=
  if cfg.SkipWaitPublishedTxs then
    (.returned none, session,
      [.reportStage .StageSkippedWaiting, .reportStage .StageSessionEndedSuccessfully])
  else
    let w := waitForPublishedTxs env.pub session fuel
    match w.1 with
    | .pending => (.pending, session, [.call .waitForPublishedTxs] ++ w.2.map .pub)
    | .returned (some err) =>
      (.returned (some (.unreportableError
          (.wrap err "error waiting for txs to be published"))), session,
        [.call .waitForPublishedTxs] ++ w.2.map .pub ++ [.ret .waitForPublishedTxs true])
    | .returned none =>
      (.returned none, session,
        [.call .waitForPublishedTxs] ++ w.2.map .pub ++ [.ret .waitForPublishedTxs false,
          .reportStage .StageSessionEndedSuccessfully])

/-- Lines 526-529, then the rest. -/
def saveAndFinish (env : SessionEnv) (cfg : Config) (session : Session) (fuel : Nat) : Run :=
  let saved := saveSession env.fs session cfg
  match saved.1 with
  | some err =>
    (.returned (some (.wrap err "error saving session")), session,
      [.call .saveSession] ++ saved.2.map .save ++ [.ret .saveSession true])
  | none =>
    Run.after ([.call .saveSession] ++ saved.2.map .save ++ [.ret .saveSession false])
      (finishSession env cfg session fuel)

/-- Lines 519-524, then the rest. -/
def fundSplitAndOn (env : SessionEnv) (cfg : Config) (session : Session) (fuel : Nat) : Run :=
  let r := env.fundSplitTx session
  match r.1 with
  | some err =>
    (.returned (some (.unreportableError err)), r.2,
      [.reportStage .StageFundingSplitTx, .call .fundSplitTx, .ret .fundSplitTx true])
  | none =>
    Run.after [.reportStage .StageFundingSplitTx, .call .fundSplitTx, .ret .fundSplitTx false,
        .reportStage .StageSplitTxFunded]
      (saveAndFinish env cfg r.2 fuel)

/-- Lines 513-517, then the rest. -/
def monitorAndOn (env : SessionEnv) (cfg : Config) (session : Session) (fuel : Nat) : Run :=
  let r := env.monitorSession session
  match r.1 with
  | some err =>
    (.returned (some (.wrap err "error when trying to start monitoring for session txs")),
      r.2, [.call .monitorSession, .ret .monitorSession true])
  | none =>
    Run.after [.call .monitorSession, .ret .monitorSession false]
      (fundSplitAndOn env cfg r.2 fuel)

/-- Lines 506-511, then the rest. -/
def fundTicketAndOn (env : SessionEnv) (cfg : Config) (session : Session) (fuel : Nat) : Run :=
  let r := env.fundTicket session
  match r.1 with
  | some err =>
    (.returned (some (.unreportableError err)), r.2,
      [.reportStage .StageFundingTicket, .call .fundTicket, .ret .fundTicket true])
  | none =>
    Run.after [.reportStage .StageFundingTicket, .call .fundTicket, .ret .fundTicket false,
        .reportStage .StageTicketFunded]
      (monitorAndOn env cfg r.2 fuel)

/-- Lines 499-504, then the rest. -/
def signAndOn (env : SessionEnv) (cfg : Config) (session : Session) (fuel : Nat) : Run :=
  let r := env.signTransactions session
  match r.1 with
  | some err =>
    (.returned (some err), r.2,
      [.reportStage .StageSigningTicket, .call .signTransactions, .ret .signTransactions true])
  | none =>
    Run.after [.reportStage .StageSigningTicket, .call .signTransactions,
        .ret .signTransactions false, .reportStage .StageTicketSigned]
      (fundTicketAndOn env cfg r.2 fuel)

/-- Lines 492-497, then the rest. -/
def generateTicketAndOn (env : SessionEnv) (cfg : Config) (session : Session) (fuel : Nat) :
    Run :=
  let r := env.generateTicket session
  match r.1 with
  | some err =>
    (.returned (some (.unreportableError err)), r.2,
      [.reportStage .StageGeneratingTicket, .call .generateTicket, .ret .generateTicket true])
  | none =>
    Run.after [.reportStage .StageGeneratingTicket, .call .generateTicket,
        .ret .generateTicket false, .reportStage .StageTicketGenerated]
      (signAndOn env cfg r.2 fuel)

/-- Lines 485-490, then the rest. -/
def generateOutputsAndOn (env : SessionEnv) (cfg : Config) (session : Session) (fuel : Nat) :
    Run :=
  let r := env.generateOutputs session
  match r.1 with
  | some err =>
    (.returned (some err), r.2,
      [.reportStage .StageGeneratingOutputs, .call .generateOutputs, .ret .generateOutputs true])
  | none =>
    Run.after [.reportStage .StageGeneratingOutputs, .call .generateOutputs,
        .ret .generateOutputs false, .reportStage .StageOutputsGenerated]
      (generateTicketAndOn env cfg r.2 fuel)

/-- The function `buySplitTicketInSession` (lines 463-544).  `fuel` is the
polling budget handed to `waitForPublishedTxs`. -/
def buySplitTicketInSession (env : SessionEnv) (cfg : Config) (session : Session)
    (fuel : Nat) : Run :=
  match env.currentChainInfo with
  | .error err =>
    (.returned (some err), session, [.call .currentChainInfo, .ret .currentChainInfo true])
  | .ok chainInfo =>
    if !IsEqual chainInfo.bestBlockHash (some session.mainchainHash) then
      (.returned (some (.base "mainchain tip of wallet (%s) not the same as matcher (%s)")),
        session, [.call .currentChainInfo, .ret .currentChainInfo false])
    else if chainInfo.bestBlockHeight != session.mainchainHeight then
      (.returned (some (.base "mainchain height of wallet (%d) not the same as matcher (%d)")),
        session, [.call .currentChainInfo, .ret .currentChainInfo false])
    else if chainInfo.ticketPrice != session.TicketPrice then
      (.returned (some (.base "ticket price of wallet (%s) not the same as matcher (%s)")),
        session, [.call .currentChainInfo, .ret .currentChainInfo false])
    else
      Run.after [.call .currentChainInfo, .ret .currentChainInfo false]
        (generateOutputsAndOn env cfg session fuel)

/-! ## waitForSession -/

/-- The case taken by the `select` of line 374, with the value received. -/
inductive WaitSelect where
  | ctxDone (err : GoError)
  | walletErr (err : GoError)
  | dcrdErr (err : GoError)
  | participateErr (err : GoError)
  | syncErr (err : GoError)
  | session (s : Session)

/-- The collaborators of `waitForSession`: the answer of every setup step and
the case its final `select` takes. -/
structure WaitEnv where
  connectToWallet : Option GoError
  checkNetwork : Option GoError
  testVoteAddress : Option GoError
  testPassphrase : Option GoError
  testFunds : Option GoError
  connectToDecredNode : Option GoError
  isDcrdataOnline : Option GoError
  connectToMatcherService : Option GoError
  status : Option GoError
  NewAmount : Option GoError
  waitSelect : WaitSelect

/-- The content of `sessionWaiterResponse`: a session with both clients, or an
error.  `blocked` stands for a `select` case that cannot fire (see
`waitPhase`). -/
inductive WaitResult where
  | matched (session : Session)
  | failed (err : GoError)
  | blocked

/-- The result of `waitForSession` with its events. -/
abbrev WaitRun := WaitResult × List Event

/-- Puts events in front of those of a wait. -/
def WaitRun.after (events : List Event) (r : WaitRun) : WaitRun :=
  (r.1, events ++ r.2)

/-- One setup step: the operation is called, and when it fails the setup scope
is canceled and the error returned (wrapped with `msg` when one is given). -/
def setupStep (op : Op) (answer : Option GoError) (msg : Option String) (rest : WaitRun) :
    WaitRun :=
  match answer with
  | some err =>
    (.failed (match msg with
        | some m => .wrap err m
        | none => err),
      [.call op, .ret op true, .setupCancel])
  | none => WaitRun.after [.call op, .ret op false] rest

/-- Whether a dcrd node was connected, so that its watcher runs (line 344). -/
def dcrdWatched (cfg : Config) : Bool :=
  !cfg.MatcherConn && !cfg.UtxosFromDcrdata

/-- Lines 374-397.  Nothing is ever sent on `dcrdErrChan` when no dcrd watcher
runs, so that case cannot be taken then. -/
def waitPhase (env : WaitEnv) (cfg : Config) : WaitRun :=
  match env.waitSelect with
  | .ctxDone err =>
    (.failed (.wrap err "timeout while waiting for session in matcher"), [.waitCancel])
  | .walletErr err => (.failed err, [.waitCancel])
  | .dcrdErr err => if dcrdWatched cfg then (.failed err, [.waitCancel]) else (.blocked, [])
  | .participateErr err =>
    (.failed (.wrap err "error while waiting to participate in session"), [.waitCancel])
  | .syncErr err =>
    (.failed (.wrap err "error while checking matcher and wallet sync to the network"),
      [.waitCancel])
  | .session s => (.matched s, [.waitCancel, .reportStage .StageMatchesFound])

/-- Lines 311-327, then the wait phase. -/
def statusAndWait (env : WaitEnv) (cfg : Config) : WaitRun :=
  setupStep .status env.status (some "error getting status from matcher")
    (WaitRun.after [.reportMatcherStatus]
      (setupStep .NewAmount env.NewAmount none
        (WaitRun.after [.setupCancel, .reportStage .StageFindingMatches]
          (waitPhase env cfg))))

/-- Lines 300-308, then the rest. -/
def connectMatcherAndOn (env : WaitEnv) (cfg : Config) : WaitRun :=
  WaitRun.after [.reportStage .StageConnectingToMatcher]
    (setupStep .connectToMatcherService env.connectToMatcherService
      (some "error connecting to matcher") (statusAndWait env cfg))

/-- Lines 276-309, then the rest. -/
def matcherSetup (env : WaitEnv) (cfg : Config) : WaitRun :=
  if !cfg.MatcherConn then
    if !cfg.UtxosFromDcrdata then
      setupStep .connectToDecredNode env.connectToDecredNode (some "error connecting to dcrd")
        (WaitRun.after [.reportStage .StageConnectingToDcrd] (connectMatcherAndOn env cfg))
    else
      setupStep .isDcrdataOnline env.isDcrdataOnline
        (some "error checking if dcrdata is online")
        (WaitRun.after [.reportStage .StageConnectingToDcrdata] (connectMatcherAndOn env cfg))
  else statusAndWait env cfg

/-- Lines 246-272, then the rest. -/
def walletChecks (env : WaitEnv) (cfg : Config) : WaitRun :=
  setupStep .checkNetwork env.checkNetwork (some "error checking for wallet network")
    (setupStep .testVoteAddress env.testVoteAddress (some "error testing buyer vote address")
      (setupStep .testPassphrase env.testPassphrase (some "error testing wallet passphrase")
        (setupStep .testFunds env.testFunds (some "error testing wallet funds")
          (matcherSetup env cfg))))

/-- The function `waitForSession` (lines 224-398). -/
def waitForSession (env : WaitEnv) (cfg : Config) : WaitRun :=
  if !cfg.WalletConn then
    WaitRun.after [.reportStage .StageConnectingToWallet]
      (setupStep .connectToWallet env.connectToWallet
        (some "error trying to connect to wallet") (walletChecks env cfg))
  else walletChecks env cfg

/-! ## buySplitTicket and BuySplitTicket -/

/-- The surroundings of one purchase attempt: the wallet discovery, the
collaborators of both phases, whether the `select` of line 207 takes the case
`ctx.Done()` (the caller canceled before the executor sent its result), and what
`ctx.Err()` gives then. -/
structure BuyEnv where
  FindListeningWallets : Except GoError (List String)
  wait : WaitEnv
  session : SessionEnv
  ctxDoneFirst : Bool
  ctxErr : GoError

/-- Lines 179-191: the wallet host is discovered when the configuration holds
the placeholder address. -/
def resolveWalletHost (env : BuyEnv) (cfg : Config) : Except GoError Config × List Event :=
  if cfg.WalletHost = "127.0.0.1:0" then
    match env.FindListeningWallets with
    | .error err =>
      (.error (.wrap err "error finding running wallet"),
        [.call .FindListeningWallets, .ret .FindListeningWallets true])
    | .ok hosts =>
      match hosts with
      | [host] =>
        (.ok { cfg with WalletHost := host },
          [.call .FindListeningWallets, .ret .FindListeningWallets false])
      | _ =>
        (.error (.base "found different number of running wallets (%d) than expected"),
          [.call .FindListeningWallets, .ret .FindListeningWallets false])
  else (.ok cfg, [])

/-- Lines 213-217: the error report sent to the matcher when the executor's
result is received. -/
def errorReport (cfg : Config) (session : Session) (err : Option GoError) : List Event :=
  match err with
  | some e =>
    if !e.isUnreportable && !cfg.SkipReportErrorsToSvc then [.sendErrorReport session.ID e]
    else []
  | none => []

/-- Lines 198-221: the executor runs to its end in its goroutine; the `select`
then either takes the caller's cancellation, drops the executor's result and
returns `ctx.Err()`, or takes the result, reports it and returns it.  The
deferred function closes both clients on either way. -/
def runSession (env : BuyEnv) (cfg : Config) (session : Session) (fuel : Nat) :
    Outcome × List Event :=
  let run := buySplitTicketInSession env.session cfg session fuel
  match run.1 with
  | .pending => (.pending, run.2.2)
  | .returned err =>
    if env.ctxDoneFirst then
      (.returned (some env.ctxErr), run.2.2 ++ [.cancelBuy, .mcClose, .wcClose])
    else
      (.returned err,
        run.2.2 ++ errorReport cfg run.2.1 err ++ [.cancelBuy, .mcClose, .wcClose])

/-- The function `buySplitTicket` (lines 177-222). -/
def buySplitTicket (env : BuyEnv) (cfg : Config) (fuel : Nat) : Outcome × List Event :=
  let host := resolveWalletHost env cfg
  match host.1 with
  | .error err => (.returned (some err), host.2)
  | .ok cfg1 =>
    let resp := waitForSession env.wait cfg1
    match resp.1 with
    | .blocked => (.pending, host.2 ++ resp.2)
    | .failed err =>
      (.returned (some (.wrap err "error waiting for session")), host.2 ++ resp.2)
    | .matched session =>
      let r := runSession env cfg1 session fuel
      (r.1, host.2 ++ resp.2 ++ r.2)

/-- The function `BuySplitTicket` (lines 163-173). -/
def BuySplitTicket (env : BuyEnv) (cfg : Config) (fuel : Nat) : Outcome × List Event :=
  let r := buySplitTicket env cfg fuel
  match r.1 with
  | .returned (some err) =>
    (r.1, [.reportStage .StageStarting] ++ r.2 ++ [.reportBuyingError err])
  | _ => (r.1, [.reportStage .StageStarting] ++ r.2)

/-! ## The ways the executor can go -/

/-- The stages reported by a trace, in order. -/
def stagesOf (trace : List Event) : List Stage :=
  trace.filterMap fun e =>
    match e with
    | .reportStage s => some s
    | _ => none

/-- The stages of `buySplitTicketInSession` up to the funding of the split
transaction, in program order. -/
def fundingStages : List Stage :=
  [.StageGeneratingOutputs, .StageOutputsGenerated, .StageGeneratingTicket,
   .StageTicketGenerated, .StageSigningTicket, .StageTicketSigned, .StageFundingTicket,
   .StageTicketFunded, .StageFundingSplitTx, .StageSplitTxFunded]

/-- The events of the executor from its start to the return of step number `n`
of its nine first steps, all of them successful. -/
def passedTrace : Nat → List Event
  | 0 => []
  | 1 => [.call .currentChainInfo, .ret .currentChainInfo false]
  | 2 => passedTrace 1 ++ [.reportStage .StageGeneratingOutputs, .call .generateOutputs,
      .ret .generateOutputs false, .reportStage .StageOutputsGenerated]
  | 3 => passedTrace 2 ++ [.reportStage .StageGeneratingTicket, .call .generateTicket,
      .ret .generateTicket false, .reportStage .StageTicketGenerated]
  | 4 => passedTrace 3 ++ [.reportStage .StageSigningTicket, .call .signTransactions,
      .ret .signTransactions false, .reportStage .StageTicketSigned]
  | 5 => passedTrace 4 ++ [.reportStage .StageFundingTicket, .call .fundTicket,
      .ret .fundTicket false, .reportStage .StageTicketFunded]
  | 6 => passedTrace 5 ++ [.call .monitorSession, .ret .monitorSession false]
  | 7 => passedTrace 6 ++ [.reportStage .StageFundingSplitTx, .call .fundSplitTx,
      .ret .fundSplitTx false, .reportStage .StageSplitTxFunded]
  | _ + 8 => passedTrace 7

/-- The ways a call of `buySplitTicketInSession` can go: the step at which it
fails with the error met there, or its end with or without the publication
wait.  `sv` and `pv` are the events of `saveSession` and `waitForPublishedTxs`. -/
inductive Path where
  | chainInfoFailed (err : GoError)
  | tipDiffers
  | heightDiffers
  | priceDiffers
  | outputsFailed (err : GoError)
  | ticketFailed (err : GoError)
  | signFailed (err : GoError)
  | fundTicketFailed (err : GoError)
  | monitorFailed (err : GoError)
  | fundSplitFailed (err : GoError)
  | saveFailed (err : GoError) (sv : List SaveEvent)
  | skipped (sv : List SaveEvent)
  | stillWaiting (sv : List SaveEvent) (pv : List PubEvent)
  | waitFailed (err : GoError) (sv : List SaveEvent) (pv : List PubEvent)
  | completed (sv : List SaveEvent) (pv : List PubEvent)

/-- The outcome of each way. -/
def Path.outcome : Path → Outcome
  | .chainInfoFailed err => .returned (some err)
  | .tipDiffers =>
    .returned (some (.base "mainchain tip of wallet (%s) not the same as matcher (%s)"))
  | .heightDiffers =>
    .returned (some (.base "mainchain height of wallet (%d) not the same as matcher (%d)"))
  | .priceDiffers =>
    .returned (some (.base "ticket price of wallet (%s) not the same as matcher (%s)"))
  | .outputsFailed err => .returned (some err)
  | .ticketFailed err => .returned (some (.unreportableError err))
  | .signFailed err => .returned (some err)
  | .fundTicketFailed err => .returned (some (.unreportableError err))
  | .monitorFailed err =>
    .returned (some (.wrap err "error when trying to start monitoring for session txs"))
  | .fundSplitFailed err => .returned (some (.unreportableError err))
  | .saveFailed err _ => .returned (some (.wrap err "error saving session"))
  | .skipped _ => .returned none
  | .stillWaiting _ _ => .pending
  | .waitFailed err _ _ =>
    .returned (some (.unreportableError (.wrap err "error waiting for txs to be published")))
  | .completed _ _ => .returned none

/-- The events of each way. -/
def Path.trace : Path → List Event
  | .chainInfoFailed _ => [.call .currentChainInfo, .ret .currentChainInfo true]
  | .tipDiffers => passedTrace 1
  | .heightDiffers => passedTrace 1
  | .priceDiffers => passedTrace 1
  | .outputsFailed _ => passedTrace 1 ++
      [.reportStage .StageGeneratingOutputs, .call .generateOutputs, .ret .generateOutputs true]
  | .ticketFailed _ => passedTrace 2 ++
      [.reportStage .StageGeneratingTicket, .call .generateTicket, .ret .generateTicket true]
  | .signFailed _ => passedTrace 3 ++
      [.reportStage .StageSigningTicket, .call .signTransactions, .ret .signTransactions true]
  | .fundTicketFailed _ => passedTrace 4 ++
      [.reportStage .StageFundingTicket, .call .fundTicket, .ret .fundTicket true]
  | .monitorFailed _ => passedTrace 5 ++ [.call .monitorSession, .ret .monitorSession true]
  | .fundSplitFailed _ => passedTrace 6 ++
      [.reportStage .StageFundingSplitTx, .call .fundSplitTx, .ret .fundSplitTx true]
  | .saveFailed _ sv => passedTrace 7 ++
      ([.call .saveSession] ++ sv.map .save ++ [.ret .saveSession true])
  | .skipped sv => passedTrace 7 ++
      ([.call .saveSession] ++ sv.map .save ++ [.ret .saveSession false] ++
       [.reportStage .StageSkippedWaiting, .reportStage .StageSessionEndedSuccessfully])
  | .stillWaiting sv pv => passedTrace 7 ++
      ([.call .saveSession] ++ sv.map .save ++ [.ret .saveSession false] ++
       ([.call .waitForPublishedTxs] ++ pv.map .pub))
  | .waitFailed _ sv pv => passedTrace 7 ++
      ([.call .saveSession] ++ sv.map .save ++ [.ret .saveSession false] ++
       ([.call .waitForPublishedTxs] ++ pv.map .pub ++ [.ret .waitForPublishedTxs true]))
  | .completed sv pv => passedTrace 7 ++
      ([.call .saveSession] ++ sv.map .save ++ [.ret .saveSession false] ++
       ([.call .waitForPublishedTxs] ++ pv.map .pub ++ [.ret .waitForPublishedTxs false,
         .reportStage .StageSessionEndedSuccessfully]))

/-- Where the error of a way comes from, for the ways that return a
collaborator's error as it is. -/
def Path.sound (env : SessionEnv) : Path → Prop
  | .chainInfoFailed err => env.currentChainInfo = .error err
  | .outputsFailed err => ∃ s, (env.generateOutputs s).1 = some err
  | .signFailed err => ∃ s, (env.signTransactions s).1 = some err
  | _ => True

/-- Every occurrence of the event `b` in the trace has an occurrence of the
event `a` before it. -/
def Before (a b : Event) (trace : List Event) : Prop :=
  ∀ pre post, trace = pre ++ b :: post → a ∈ pre

/-- Events of the setup and wait phases: reporter calls other than the success
stage, operations and the two cancel functions of `waitForSession`. -/
def Event.isSetup : Event → Bool
  | .reportStage s => decide (s ≠ .StageSessionEndedSuccessfully)
  | .reportMatcherStatus => true
  | .call _ => true
  | .ret _ _ => true
  | .setupCancel => true
  | .waitCancel => true
  | _ => false

/-- Events of the executor: stages, operations and what `saveSession` and
`waitForPublishedTxs` do. -/
def Event.isExecutor : Event → Bool
  | .reportStage _ => true
  | .call _ => true
  | .ret _ _ => true
  | .save _ => true
  | .pub _ => true
  | _ => false

/-- Whether an event is a call of `reportBuyingError`. -/
def Event.isBuyingError : Event → Bool
  | .reportBuyingError _ => true
  | _ => false

/-- Whether an event is an error report sent to the matcher. -/
def Event.isErrorReport : Event → Bool
  | .sendErrorReport _ _ => true
  | _ => false

/-- The terminal success stage as an event. -/
def successStage : Event := .reportStage .StageSessionEndedSuccessfully

/-- Whether an event of `saveSession` is a write to the sink: a call of `out`
or of `hexWriter.Write`. -/
def SaveEvent.isWrite : SaveEvent → Bool
  | .out _ => true
  | .hexWrite _ => true
  | _ => false

/-! ## myTotalAmountIn -/

/-- The value an `int64` holds after a computation whose exact result is `x`:
two's-complement wraparound into the range from `-2^63` to `2^63 - 1`.
`dcrutil.Amount` is an `int64`. -/
def wrapInt64 (x : Int) : Int :=
  (x + 2 ^ 63) % 2 ^ 64 - 2 ^ 63

/-- One pass through the loop body of lines 125-128: the total after the input
`txIn`, given the total before it. -/
def addAmountIn (splitTxUtxoMap : OutPoint → Option UtxoEntry) (total : Int) (txIn : TxIn) :
    Int :=
  match splitTxUtxoMap txIn.PreviousOutPoint with
  | some entry => wrapInt64 (total + entry.Value)
  | none => total

/-- The method `Session.myTotalAmountIn` (lines 122-131). -/
def myTotalAmountIn (session : Session) : Int :=
  session.splitInputs.foldl (addAmountIn session.splitTxUtxoMap) 0

/-- What a split input adds to the total: the `Value` of the map entry of its
previous outpoint, or 0 when the map has no entry for it. -/
def amountOfInput (splitTxUtxoMap : OutPoint → Option UtxoEntry) (txIn : TxIn) : Int :=
  match splitTxUtxoMap txIn.PreviousOutPoint with
  | some entry => entry.Value
  | none => 0

/-- The exact sum of what the inputs add, in order, repeated outpoints counted
each time. -/
def sumOfInputs (splitTxUtxoMap : OutPoint → Option UtxoEntry) (inputs : List TxIn) : Int :=
  (inputs.map (amountOfInput splitTxUtxoMap)).sum

/-- The map entries of the inputs that resolve, in order, repeated outpoints
counted each time. -/
def resolvedEntries (splitTxUtxoMap : OutPoint → Option UtxoEntry) (inputs : List TxIn) :
    List UtxoEntry :=
  inputs.filterMap fun txIn => splitTxUtxoMap txIn.PreviousOutPoint

/-! ## Sample data -/

/-- A transaction with the given hash that serialises without error. -/
def sampleTx (h : Hash) : MsgTx := ⟨h, .ok [0]⟩

/-- A session of two participants whose selected ticket has hash `[7]`. -/
def sampleSession : Session where
  ID := 1
  Amount := 10
  Fee := 1
  PoolFee := 1
  TicketPrice := 24
  mainchainHash := [9]
  mainchainHeight := 100
  nbParticipants := 2
  splitChange := none
  splitInputs := []
  participants := [⟨10, sampleTx [7], sampleTx [8]⟩, ⟨12, sampleTx [7], sampleTx [8]⟩]
  splitTxUtxoMap := fun _ => none
  selectedTicket := sampleTx [7]
  fundedSplitTx := sampleTx [6]
  selectedRevocation := sampleTx [8]

/-- A wallet that has seen the split transaction and the expected ticket, under
a context that never ends. -/
def rightTicketEnv : PubEnv where
  ctxDone := fun _ => false
  ctxErr := none
  PublishedSplitTx := fun _ => true
  PublishedTicketTx := fun _ => some [7]

/-- A wallet that has seen another ticket (hash `[5]`) and sees the split
transaction at the third call of its probe, under a context that never ends. -/
def wrongTicketEnv : PubEnv where
  ctxDone := fun _ => false
  ctxErr := none
  PublishedSplitTx := fun k => decide (2 ≤ k)
  PublishedTicketTx := fun _ => some [5]

/-- A client operation that succeeds and leaves the session as it is. -/
def okStep : Session → Option GoError × Session := fun s => (none, s)

/-- The chain information matching `sampleSession`. -/
def sampleChainInfo : ChainInfo := ⟨some [9], 100, 24⟩

/-- A file system on which everything succeeds. -/
def okFs : FsEnv := ⟨.found, none, none⟩

/-- Collaborators that all succeed, with the wallet of `rightTicketEnv`. -/
def okSessionEnv : SessionEnv :=
  ⟨.ok sampleChainInfo, okStep, okStep, okStep, okStep, okStep, okStep, okFs, rightTicketEnv⟩

/-- A wallet polled under a context whose deadline has passed. -/
def expiredPubEnv : PubEnv where
  ctxDone := fun _ => true
  ctxErr := some (.base "context deadline exceeded")
  PublishedSplitTx := fun _ => false
  PublishedTicketTx := fun _ => none

/-- Collaborators that all succeed, the publication wait meeting the end of its
context. -/
def expiredSessionEnv : SessionEnv :=
  ⟨.ok sampleChainInfo, okStep, okStep, okStep, okStep, okStep, okStep, okFs, expiredPubEnv⟩

/-- A configuration with both connections and a session writer supplied. -/
def sampleCfg : Config := ⟨"127.0.0.1:19121", true, true, false, false, false, true⟩

/-- The same configuration with `SkipWaitPublishedTxs` set. -/
def skipCfg : Config := ⟨"127.0.0.1:19121", true, true, false, false, true, true⟩

/-- Collaborators of which `fundTicket` fails and the others succeed. -/
def fundTicketFailsEnv : SessionEnv :=
  ⟨.ok sampleChainInfo, okStep, okStep, okStep,
    fun s => (some (.base "matcher refused the ticket"), s), okStep, okStep, okFs,
    rightTicketEnv⟩

/-- A setup in which every step succeeds and the matcher answers with
`sampleSession`. -/
def okWaitEnv : WaitEnv :=
  ⟨none, none, none, none, none, none, none, none, none, none, .session sampleSession⟩

/-- A purchase attempt in which every collaborator succeeds and the caller
cancels before the executor has sent its result. -/
def canceledBuyEnv : BuyEnv :=
  ⟨.ok ["127.0.0.1:19121"], okWaitEnv, okSessionEnv, true, .base "context canceled"⟩

/-- A purchase attempt in which every collaborator succeeds and the caller never
cancels. -/
def okBuyEnv : BuyEnv :=
  ⟨.ok ["127.0.0.1:19121"], okWaitEnv, okSessionEnv, false, .base "context canceled"⟩

/-- A purchase attempt whose publication wait fails and whose caller never
cancels. -/
def expiredBuyEnv : BuyEnv :=
  ⟨.ok ["127.0.0.1:19121"], okWaitEnv, expiredSessionEnv, false, .base "context canceled"⟩

/-- The error `buySplitTicketInSession` returns on `expiredSessionEnv`. -/
def expiredWaitError : GoError :=
  .unreportableError (.wrap (.wrap (.base "context deadline exceeded")
    "context error while waiting forpublished txs") "error waiting for txs to be published")

/-- A transaction with the given hash whose serialisation fails, as it does
for a `MsgTx` of unsupported serialisation type. -/
def unserialisableTx (h : Hash) : MsgTx :=
  ⟨h, .error (.base "MsgTx.BtcEncode: unsupported transaction type")⟩

/-- The session `sampleSession` with a funded split transaction that fails to
serialise. -/
def badSplitSession : Session :=
  { sampleSession with fundedSplitTx := unserialisableTx [6] }

/-- The session `sampleSession` whose second participant has a revocation that
fails to serialise. -/
def badParticipantSession : Session :=
  { sampleSession with
    participants := [⟨10, sampleTx [7], sampleTx [8]⟩, ⟨12, sampleTx [7], unserialisableTx [8]⟩] }

/-- A configuration without a session writer: the session goes to a file. -/
def fileCfg : Config := ⟨"127.0.0.1:19121", true, true, false, false, false, false⟩

/-- The outpoint number `n` of a transaction of hash `[1]`. -/
def sampleOutPoint (n : Nat) : OutPoint := ⟨[1], n, 0⟩

/-- A session with two split inputs that resolve in the map to entries of
`2^62` atoms each. -/
def overflowSession : Session :=
  { sampleSession with
    splitInputs := [⟨sampleOutPoint 0⟩, ⟨sampleOutPoint 1⟩]
    splitTxUtxoMap := fun op =>
      if op = sampleOutPoint 0 ∨ op = sampleOutPoint 1 then some ⟨2 ^ 62⟩ else none }

/-- A session with four split inputs: outpoint 0 twice (entry of 30 atoms),
outpoint 1 (entry of 12 atoms) and outpoint 2, which the map does not hold. -/
def repeatedInputSession : Session :=
  { sampleSession with
    splitInputs := [⟨sampleOutPoint 0⟩, ⟨sampleOutPoint 1⟩, ⟨sampleOutPoint 0⟩,
      ⟨sampleOutPoint 2⟩]
    splitTxUtxoMap := fun op =>
      if op = sampleOutPoint 0 then some ⟨30⟩
      else if op = sampleOutPoint 1 then some ⟨12⟩ else none }

/-! ## Theorems -/

theorem pubLoop_done (env : PubEnv) (exp : Hash) (fuel : Nat) (st : PubState)
    (h1 : st.notifiedSplit = true) (h2 : st.notifiedTicket = true) :
    pubLoop env exp fuel st = (.returned (pubResult st), []) := by
  cases fuel <;> simp [pubLoop, h1, h2]

theorem pubLoop_split_wait (env : PubEnv) (exp : Hash)
    (hctx : ∀ k, env.ctxDone k = false) (d : Nat) :
    ∀ (st : PubState) (fuel : Nat),
      st.notifiedSplit = false → st.notifiedTicket = true →
      (∀ k, k < d → env.PublishedSplitTx (st.splitCalls + k) = false) →
      env.PublishedSplitTx (st.splitCalls + d) = true →
      d + 1 ≤ fuel →
      pubLoop env exp fuel st = (.returned (pubResult st), splitWaitTrace d) := by
  induction d with
  | zero =>
    intro st fuel h1 h2 _ ht hf
    obtain ⟨f, rfl⟩ : ∃ f, fuel = f + 1 := ⟨fuel - 1, by omega⟩
    simp only [Nat.add_zero] at ht
    simp [pubLoop, h1, h2, hctx, pollSplit, pollTicket, ht, pubLoop_done, splitWaitTrace,
      pubResult]
  | succ d ih =>
    rintro ⟨ns, nt, ct, p, sc, tc⟩ fuel h1 h2 hfalse ht hf
    simp only at h1 h2 hfalse ht
    subst h1 h2
    obtain ⟨f, rfl⟩ : ∃ f, fuel = f + 1 := ⟨fuel - 1, by omega⟩
    have h0 : env.PublishedSplitTx sc = false := by
      simpa using hfalse 0 (by omega)
    have hrest := ih ⟨false, true, ct, p + 1, sc + 1, tc⟩ f rfl rfl
      (fun k hk => by
        have := hfalse (k + 1) (by omega)
        simpa [Nat.add_assoc, Nat.add_comm 1 k] using this)
      (by simpa [Nat.add_assoc, Nat.add_comm 1 d] using ht)
      (by omega)
    simp [pubLoop, hctx, pollSplit, pollTicket, h0, splitWaitTrace, hrest, pubResult]

theorem pubLoop_split_pending (env : PubEnv) (exp : Hash)
    (hctx : ∀ k, env.ctxDone k = false) :
    ∀ (fuel : Nat) (st : PubState),
      st.notifiedSplit = false → st.notifiedTicket = true →
      (∀ k, k < fuel → env.PublishedSplitTx (st.splitCalls + k) = false) →
      (pubLoop env exp fuel st).1 = .pending := by
  intro fuel
  induction fuel with
  | zero => intro st h1 h2 _; simp [pubLoop, h1]
  | succ f ih =>
    rintro ⟨ns, nt, ct, p, sc, tc⟩ h1 h2 hfalse
    simp only at h1 h2 hfalse
    subst h1 h2
    have h0 : env.PublishedSplitTx sc = false := by
      simpa using hfalse 0 (by omega)
    have hrest := ih ⟨false, true, ct, p + 1, sc + 1, tc⟩ rfl rfl
      (fun k hk => by
        have := hfalse (k + 1) (by omega)
        simpa [Nat.add_assoc, Nat.add_comm 1 k] using this)
    simp [pubLoop, hctx, pollSplit, pollTicket, h0, hrest]

theorem waitForPublishedTxs_trace (env : PubEnv) (session : Session) (n fuel : Nat)
    (hctx : ∀ k, env.ctxDone k = false)
    (hfalse : ∀ k, k < n → env.PublishedSplitTx k = false)
    (htrue : env.PublishedSplitTx n = true)
    (hfirst : (env.PublishedTicketTx 0).isSome = true)
    (hfuel : n + 1 ≤ fuel) :
    waitForPublishedTxs env session fuel =
      (.returned (if IsEqual (some session.selectedTicket.TxHash) (env.PublishedTicketTx 1)
          then none else some wrongTicketError),
       pubTrace session.selectedTicket.TxHash (env.PublishedTicketTx 0)
          (env.PublishedTicketTx 1) n) := by
  obtain ⟨f, rfl⟩ : ∃ f, fuel = f + 1 := ⟨fuel - 1, by omega⟩
  cases n with
  | zero =>
    by_cases heq : IsEqual (some session.selectedTicket.TxHash) (env.PublishedTicketTx 1) = true
    · simp [waitForPublishedTxs, pubLoop, hctx, pollSplit, pollTicket, htrue, hfirst, heq,
        pubLoop_done, pubResult, pubTrace, ticketReport]
    · simp [waitForPublishedTxs, pubLoop, hctx, pollSplit, pollTicket, htrue, hfirst, heq,
        pubLoop_done, pubResult, pubTrace, ticketReport]
  | succ m =>
    have h0 : env.PublishedSplitTx 0 = false := hfalse 0 (by omega)
    by_cases heq : IsEqual (some session.selectedTicket.TxHash) (env.PublishedTicketTx 1) = true
    · have hrest := pubLoop_split_wait env session.selectedTicket.TxHash hctx m
        ⟨false, true, true, 1, 1, 2⟩ f rfl rfl
        (fun k hk => by simpa [Nat.add_comm 1 k] using hfalse (k + 1) (by omega))
        (by simpa [Nat.add_comm 1 m] using htrue) (by omega)
      simp [waitForPublishedTxs, pubLoop, hctx, pollSplit, pollTicket, h0, hfirst, heq,
        pubResult, pubTrace, ticketReport, hrest]
    · have hrest := pubLoop_split_wait env session.selectedTicket.TxHash hctx m
        ⟨false, true, false, 1, 1, 2⟩ f rfl rfl
        (fun k hk => by simpa [Nat.add_comm 1 k] using hfalse (k + 1) (by omega))
        (by simpa [Nat.add_comm 1 m] using htrue) (by omega)
      simp [waitForPublishedTxs, pubLoop, hctx, pollSplit, pollTicket, h0, hfirst, heq,
        pubResult, pubTrace, ticketReport, hrest]

theorem waitForPublishedTxs_pending (env : PubEnv) (session : Session) (n fuel : Nat)
    (hctx : ∀ k, env.ctxDone k = false)
    (hfalse : ∀ k, k < n → env.PublishedSplitTx k = false)
    (hfirst : (env.PublishedTicketTx 0).isSome = true)
    (hfuel : fuel ≤ n) :
    (waitForPublishedTxs env session fuel).1 = .pending := by
  cases fuel with
  | zero => simp [waitForPublishedTxs, pubLoop]
  | succ f =>
    have h0 : env.PublishedSplitTx 0 = false := hfalse 0 (by omega)
    have hrest : ∀ c, (pubLoop env session.selectedTicket.TxHash f
        ⟨false, true, c, 1, 1, 2⟩).1 = .pending := fun c =>
      pubLoop_split_pending env session.selectedTicket.TxHash hctx f _ rfl rfl
        (fun k hk => by simpa [Nat.add_comm 1 k] using hfalse (k + 1) (by omega))
    by_cases heq : IsEqual (some session.selectedTicket.TxHash) (env.PublishedTicketTx 1) = true
    · simp [waitForPublishedTxs, pubLoop, hctx, pollSplit, pollTicket, h0, hfirst, heq, hrest]
    · simp [waitForPublishedTxs, pubLoop, hctx, pollSplit, pollTicket, h0, hfirst, heq, hrest]

theorem splitWaitTrace_count_right (d : Nat) :
    (splitWaitTrace d).count .reportRightTicketPublished = 0 := by
  induction d with
  | zero => decide
  | succ d ih => simp [splitWaitTrace, ih]

theorem splitWaitTrace_filter_wrong (d : Nat) :
    (splitWaitTrace d).filter PubEvent.isWrongTicket = [] := by
  induction d with
  | zero => rfl
  | succ d ih => simp [splitWaitTrace, ih, PubEvent.isWrongTicket]

theorem splitWaitTrace_filter_split (d : Nat) :
    (splitWaitTrace d).filter PubEvent.isSplitProbe =
      List.replicate d (.PublishedSplitTx false) ++ [.PublishedSplitTx true] := by
  induction d with
  | zero => rfl
  | succ d ih => simp [splitWaitTrace, ih, PubEvent.isSplitProbe, List.replicate_succ]

/-- C1: when the context is never done, the split probe answers true and the
ticket probe answers the hash of `session.selectedTicket`, `waitForPublishedTxs`
returns nil (for every polling budget of at least one poll), calls
`reportRightTicketPublished` exactly once and never calls
`reportWrongTicketPublished`. -/
theorem waitForPublishedTxs_right_ticket (env : PubEnv) (session : Session) (fuel : Nat)
    (hctx : ∀ k, env.ctxDone k = false)
    (hsplit : ∀ k, env.PublishedSplitTx k = true)
    (hticket : ∀ k, env.PublishedTicketTx k = some session.selectedTicket.TxHash)
    (hfuel : 1 ≤ fuel) :
    (waitForPublishedTxs env session fuel).1 = .returned none ∧
    (waitForPublishedTxs env session fuel).2.count .reportRightTicketPublished = 1 ∧
    (waitForPublishedTxs env session fuel).2.filter PubEvent.isWrongTicket = [] := by
  have h := waitForPublishedTxs_trace env session 0 fuel hctx (fun k hk => by omega)
    (hsplit 0) (by simp [hticket]) hfuel
  rw [h]
  simp [hticket, IsEqual, pubTrace, ticketReport, PubEvent.isWrongTicket]

/-- Witness of C1 on `rightTicketEnv` and `sampleSession` with a budget of three
polls. -/
theorem waitForPublishedTxs_right_ticket_witness :
    (waitForPublishedTxs rightTicketEnv sampleSession 3).1 = .returned none ∧
    (waitForPublishedTxs rightTicketEnv sampleSession 3).2.count
      .reportRightTicketPublished = 1 ∧
    (waitForPublishedTxs rightTicketEnv sampleSession 3).2.filter
      PubEvent.isWrongTicket = [] :=
  waitForPublishedTxs_right_ticket rightTicketEnv sampleSession 3 (fun _ => rfl)
    (fun _ => rfl) (fun _ => rfl) (by decide)

/-- C2: when the context is never done, every answer of the ticket probe is a
hash different from the hash of `session.selectedTicket`, and the split probe
answers true for the first time at its call number `n`, then
`waitForPublishedTxs` is still polling after any `n` polls or fewer, and with a
budget of `n + 1` polls or more it returns the wrong-ticket error after exactly
`n + 1` calls of the split probe, having called `reportWrongTicketPublished`
once, with the hash the probe answered when it was fetched, and
`reportRightTicketPublished` never. -/
theorem waitForPublishedTxs_wrong_ticket (env : PubEnv) (session : Session) (n : Nat)
    (hctx : ∀ k, env.ctxDone k = false)
    (hfalse : ∀ k, k < n → env.PublishedSplitTx k = false)
    (htrue : env.PublishedSplitTx n = true)
    (hticket : ∀ k, ∃ h, env.PublishedTicketTx k = some h ∧
      h ≠ session.selectedTicket.TxHash) :
    (∀ fuel, fuel ≤ n → (waitForPublishedTxs env session fuel).1 = .pending) ∧
    (∀ fuel, n + 1 ≤ fuel →
      (waitForPublishedTxs env session fuel).1 = .returned (some wrongTicketError) ∧
      (waitForPublishedTxs env session fuel).2.filter PubEvent.isSplitProbe =
        List.replicate n (.PublishedSplitTx false) ++ [.PublishedSplitTx true] ∧
      (waitForPublishedTxs env session fuel).2.filter PubEvent.isWrongTicket =
        [.reportWrongTicketPublished (env.PublishedTicketTx 1)] ∧
      (waitForPublishedTxs env session fuel).2.count .reportRightTicketPublished = 0) := by
  obtain ⟨h0, hh0, -⟩ := hticket 0
  obtain ⟨h1, hh1, hne⟩ := hticket 1
  have hneq : IsEqual (some session.selectedTicket.TxHash) (some h1) = false := by
    simp only [IsEqual, beq_eq_false_iff_ne, ne_eq]
    exact fun h => hne h.symm
  refine ⟨fun fuel hf => waitForPublishedTxs_pending env session n fuel hctx hfalse
    (by simp [hh0]) hf, fun fuel hf => ?_⟩
  rw [waitForPublishedTxs_trace env session n fuel hctx hfalse htrue (by simp [hh0]) hf]
  cases n with
  | zero => simp [hh1, hneq, pubTrace, ticketReport, PubEvent.isSplitProbe,
      PubEvent.isWrongTicket]
  | succ m => simp [hh1, hneq, pubTrace, ticketReport, PubEvent.isSplitProbe,
      PubEvent.isWrongTicket, splitWaitTrace_filter_split, splitWaitTrace_filter_wrong,
      splitWaitTrace_count_right, List.replicate_succ]

/-- Witness of C2 on `wrongTicketEnv`, whose split probe answers true at call
number 2. -/
theorem waitForPublishedTxs_wrong_ticket_witness :
    (∀ fuel, fuel ≤ 2 →
      (waitForPublishedTxs wrongTicketEnv sampleSession fuel).1 = .pending) ∧
    (∀ fuel, 2 + 1 ≤ fuel →
      (waitForPublishedTxs wrongTicketEnv sampleSession fuel).1 =
        .returned (some wrongTicketError) ∧
      (waitForPublishedTxs wrongTicketEnv sampleSession fuel).2.filter
        PubEvent.isSplitProbe =
        List.replicate 2 (.PublishedSplitTx false) ++ [.PublishedSplitTx true] ∧
      (waitForPublishedTxs wrongTicketEnv sampleSession fuel).2.filter
        PubEvent.isWrongTicket =
        [.reportWrongTicketPublished (wrongTicketEnv.PublishedTicketTx 1)] ∧
      (waitForPublishedTxs wrongTicketEnv sampleSession fuel).2.count
        .reportRightTicketPublished = 0) :=
  waitForPublishedTxs_wrong_ticket wrongTicketEnv sampleSession 2 (fun _ => rfl)
    (fun k hk => by simp [wrongTicketEnv]; omega) (by decide)
    (fun _ => ⟨[5], rfl, by decide⟩)


theorem syncLoop_follows (env : SyncEnv) : ∀ (fuel : Nat) (st : SyncState),
    ∃ rounds ending,
      (syncLoop env fuel st).2 = roundsEvents rounds ++ SyncEnding.events ending ∧
      (syncLoop env fuel st).1 = SyncEnding.outcome ending ∧
      Follows env rounds ending fuel st := by
  intro fuel
  induction fuel with
  | zero =>
    intro st
    exact ⟨[], .running, by simp [syncLoop, roundsEvents, SyncEnding.events],
      by simp [syncLoop, SyncEnding.outcome], rfl⟩
  | succ f ih =>
    intro st
    by_cases hsel : selectTick env st.waits = true
    · cases h1 : (checkSync env { st with waits := st.waits + 1 }).1 with
      | none =>
        obtain ⟨rs, en, h2, h3, h4⟩ :=
          ih (checkSync env { st with waits := st.waits + 1 }).2
        refine ⟨.inSync :: rs, en, ?_, ?_, ?_⟩
        · simp [syncLoop, hsel, h1, roundsEvents, SyncRound.events, h2]
        · simp [syncLoop, hsel, h1, h3]
        · exact ⟨Nat.succ_pos f, hsel, h1, h4⟩
      | some err1 =>
        cases h5 : (checkSync env
            { (checkSync env { st with waits := st.waits + 1 }).2 with
              randCalls := (checkSync env { st with waits := st.waits + 1 }).2.randCalls + 1,
              waits := (checkSync env { st with waits := st.waits + 1 }).2.waits + 1 }).1 with
        | some err =>
          refine ⟨[], .outOfSync err1
            (10 + env.Intn (checkSync env { st with waits := st.waits + 1 }).2.randCalls % 10)
            err, ?_, ?_, ?_⟩
          · simp [syncLoop, hsel, h1, h5, roundsEvents, SyncEnding.events]
          · simp [syncLoop, hsel, h1, h5, SyncEnding.outcome]
          · exact ⟨Nat.succ_pos f, hsel, h1, rfl, h5⟩
        | none =>
          obtain ⟨rs, en, h2, h3, h4⟩ := ih (checkSync env
            { (checkSync env { st with waits := st.waits + 1 }).2 with
              randCalls := (checkSync env { st with waits := st.waits + 1 }).2.randCalls + 1,
              waits := (checkSync env { st with waits := st.waits + 1 }).2.waits + 1 }).2
          refine ⟨.recovered err1
            (10 + env.Intn (checkSync env { st with waits := st.waits + 1 }).2.randCalls % 10)
            :: rs, en, ?_, ?_, ?_⟩
          · simp [syncLoop, hsel, h1, h5, roundsEvents, SyncRound.events, h2]
          · simp [syncLoop, hsel, h1, h5, h3]
          · exact ⟨Nat.succ_pos f, hsel, h1, rfl, h5, h4⟩
    · refine ⟨[], .canceled, ?_, ?_, ?_⟩
      · simp [syncLoop, hsel, roundsEvents, SyncEnding.events]
      · simp [syncLoop, hsel, SyncEnding.outcome]
      · exact ⟨Nat.succ_pos f, by simpa using hsel⟩

theorem follows_jitterOk (env : SyncEnv) (ending : SyncEnding) :
    ∀ (rounds : List SyncRound) (fuel : Nat) (st : SyncState),
      Follows env rounds ending fuel st →
      (∀ r ∈ rounds, SyncRound.jitterOk r = true) ∧ SyncEnding.jitterOk ending = true := by
  intro rounds
  induction rounds with
  | nil =>
    intro fuel st h
    refine ⟨by simp, ?_⟩
    cases ending with
    | canceled => rfl
    | running => rfl
    | outOfSync first seconds second =>
      obtain ⟨-, -, -, hs, -⟩ := h
      simp only [SyncEnding.jitterOk, decide_eq_true_eq]
      omega
  | cons r rs ih =>
    intro fuel st h
    cases r with
    | inSync =>
      obtain ⟨-, -, -, hrest⟩ := h
      obtain ⟨h1, h2⟩ := ih _ _ hrest
      refine ⟨fun r hr => ?_, h2⟩
      rcases List.mem_cons.mp hr with rfl | hr
      · rfl
      · exact h1 r hr
    | recovered first seconds =>
      obtain ⟨-, -, -, hs, -, hrest⟩ := h
      obtain ⟨h1, h2⟩ := ih _ _ hrest
      refine ⟨fun r hr => ?_, h2⟩
      rcases List.mem_cons.mp hr with rfl | hr
      · simp only [SyncRound.jitterOk, decide_eq_true_eq]
        omega
      · exact h1 r hr

theorem checkSync_answers (env : SyncEnv) (st : SyncState) :
    (∀ err, env.status st.statusCalls = .error err →
      checkSync env st = (some (.wrap err "error checking status of matcher"),
        ⟨st.waits, st.statusCalls + 1, st.chainInfoCalls, st.randCalls⟩)) ∧
    (∀ mainchainHash, env.status st.statusCalls = .ok mainchainHash →
      (∀ err, env.currentChainInfo st.chainInfoCalls = .error err →
        checkSync env st = (some (.wrap err "error checking wallet chain info"),
          ⟨st.waits, st.statusCalls + 1, st.chainInfoCalls + 1, st.randCalls⟩)) ∧
      (∀ bestBlockHash, env.currentChainInfo st.chainInfoCalls = .ok bestBlockHash →
        (mainchainHash.length ≠ HashSize →
          checkSync env st =
            (some (.wrap (.base "invalid hash length") "matcher sent an invalid hash"),
              ⟨st.waits, st.statusCalls + 1, st.chainInfoCalls + 1, st.randCalls⟩)) ∧
        (mainchainHash.length = HashSize →
          IsEqual (some mainchainHash) bestBlockHash = false →
          checkSync env st = (some hashMismatchError,
            ⟨st.waits, st.statusCalls + 1, st.chainInfoCalls + 1, st.randCalls⟩)) ∧
        (mainchainHash.length = HashSize →
          IsEqual (some mainchainHash) bestBlockHash = true →
          checkSync env st =
            (none, ⟨st.waits, st.statusCalls + 1, st.chainInfoCalls + 1, st.randCalls⟩)))) := by
  refine ⟨fun err h => by simp [checkSync, h], fun m hm =>
    ⟨fun err hw => by simp [checkSync, hm, hw], fun w hw =>
      ⟨fun hlen => ?_, fun hlen hne => ?_, fun hlen heq => ?_⟩⟩⟩
  · simp [checkSync, hm, hw, NewHash, hlen]
  · simp [checkSync, hm, hw, NewHash, hlen, hne]
  · simp [checkSync, hm, hw, NewHash, hlen, heq]

theorem syncLoop_mismatch_tick (env : SyncEnv) (st : SyncState) (fuel : Nat)
    (mainchainHash : List Nat) (bestBlockHash : Option Hash)
    (hsel : selectTick env st.waits = true)
    (hm : env.status st.statusCalls = .ok mainchainHash)
    (hw : env.currentChainInfo st.chainInfoCalls = .ok bestBlockHash)
    (hlen : mainchainHash.length = HashSize)
    (hne : IsEqual (some mainchainHash) bestBlockHash = false) :
    (∀ (mainchainHash2 : List Nat) (bestBlockHash2 : Option Hash),
      env.status (st.statusCalls + 1) = .ok mainchainHash2 →
      env.currentChainInfo (st.chainInfoCalls + 1) = .ok bestBlockHash2 →
      mainchainHash2.length = HashSize →
      IsEqual (some mainchainHash2) bestBlockHash2 = true →
      syncLoop env (fuel + 1) st =
        ((syncLoop env fuel
            ⟨st.waits + 2, st.statusCalls + 2, st.chainInfoCalls + 2, st.randCalls + 1⟩).1,
          [.tick, .checkSync (some hashMismatchError),
           .sleep (10 + env.Intn st.randCalls % 10), .checkSync none] ++
          (syncLoop env fuel
            ⟨st.waits + 2, st.statusCalls + 2, st.chainInfoCalls + 2, st.randCalls + 1⟩).2)) ∧
    (∀ (mainchainHash2 : List Nat) (bestBlockHash2 : Option Hash),
      env.status (st.statusCalls + 1) = .ok mainchainHash2 →
      env.currentChainInfo (st.chainInfoCalls + 1) = .ok bestBlockHash2 →
      mainchainHash2.length = HashSize →
      IsEqual (some mainchainHash2) bestBlockHash2 = false →
      syncLoop env (fuel + 1) st =
        (.returned (some hashMismatchError),
          [.tick, .checkSync (some hashMismatchError),
           .sleep (10 + env.Intn st.randCalls % 10), .checkSync (some hashMismatchError),
           .tickerStop])) := by
  have h1 : checkSync env { st with waits := st.waits + 1 } =
      (some hashMismatchError,
        ⟨st.waits + 1, st.statusCalls + 1, st.chainInfoCalls + 1, st.randCalls⟩) := by
    simp [checkSync, hm, hw, NewHash, hlen, hne]
  constructor
  · intro m2 w2 hm2 hw2 hlen2 heq2
    have h2 : checkSync env
        ⟨st.waits + 1 + 1, st.statusCalls + 1, st.chainInfoCalls + 1, st.randCalls + 1⟩ =
        (none,
          ⟨st.waits + 1 + 1, st.statusCalls + 1 + 1, st.chainInfoCalls + 1 + 1,
            st.randCalls + 1⟩) := by
      simp [checkSync, hm2, hw2, NewHash, hlen2, heq2]
    simp [syncLoop, hsel, h1, h2, Nat.add_assoc]
  · intro m2 w2 hm2 hw2 hlen2 hne2
    have h2 : checkSync env
        ⟨st.waits + 1 + 1, st.statusCalls + 1, st.chainInfoCalls + 1, st.randCalls + 1⟩ =
        (some hashMismatchError,
          ⟨st.waits + 1 + 1, st.statusCalls + 1 + 1, st.chainInfoCalls + 1 + 1,
            st.randCalls + 1⟩) := by
      simp [checkSync, hm2, hw2, NewHash, hlen2, hne2]
    simp [syncLoop, hsel, h1, h2]

/-- C3: in `checkMatcherWalletBlockchainSync` (1) the `select` takes the ticker
case unless the context is canceled and the ticker case is not chosen; (2) the
result of a check is fixed by the answers asked for at that point: an error
when the matcher or the wallet call fails or the matcher's hash is invalid,
the mismatch error when the two chain-tip hashes differ, nil when they are
equal, and every check asks the matcher anew; (3) on every tick at which the
hashes differ the function sleeps the jitter and rechecks once, on fresh
answers: when the recheck finds the hashes equal no error is returned and the
loop goes on with the next pass, when it finds them different again the error
is returned; (4) every run is the sequence of completed passes and the one
ending that the answers dictate (`Follows`), so that an error is returned only
as the result of a failed recheck, the second of two consecutive failed
checks separated by the jitter sleep of 10 to 19 seconds. -/
theorem checkMatcherWalletBlockchainSync_second_consecutive (env : SyncEnv) (fuel : Nat) :
    (∀ w, selectTick env w = true ↔ (env.ctxCanceledBy w = false ∨ env.tickChosen w = true)) ∧
    (∀ st : SyncState,
      (∀ err, env.status st.statusCalls = .error err →
        checkSync env st = (some (.wrap err "error checking status of matcher"),
          ⟨st.waits, st.statusCalls + 1, st.chainInfoCalls, st.randCalls⟩)) ∧
      (∀ mainchainHash, env.status st.statusCalls = .ok mainchainHash →
        (∀ err, env.currentChainInfo st.chainInfoCalls = .error err →
          checkSync env st = (some (.wrap err "error checking wallet chain info"),
            ⟨st.waits, st.statusCalls + 1, st.chainInfoCalls + 1, st.randCalls⟩)) ∧
        (∀ bestBlockHash, env.currentChainInfo st.chainInfoCalls = .ok bestBlockHash →
          (mainchainHash.length ≠ HashSize →
            checkSync env st =
              (some (.wrap (.base "invalid hash length") "matcher sent an invalid hash"),
                ⟨st.waits, st.statusCalls + 1, st.chainInfoCalls + 1, st.randCalls⟩)) ∧
          (mainchainHash.length = HashSize →
            IsEqual (some mainchainHash) bestBlockHash = false →
            checkSync env st = (some hashMismatchError,
              ⟨st.waits, st.statusCalls + 1, st.chainInfoCalls + 1, st.randCalls⟩)) ∧
          (mainchainHash.length = HashSize →
            IsEqual (some mainchainHash) bestBlockHash = true →
            checkSync env st =
              (none,
                ⟨st.waits, st.statusCalls + 1, st.chainInfoCalls + 1, st.randCalls⟩))))) ∧
    (∀ (st : SyncState) (passes : Nat) (mainchainHash : List Nat)
      (bestBlockHash : Option Hash),
      selectTick env st.waits = true →
      env.status st.statusCalls = .ok mainchainHash →
      env.currentChainInfo st.chainInfoCalls = .ok bestBlockHash →
      mainchainHash.length = HashSize →
      IsEqual (some mainchainHash) bestBlockHash = false →
      (∀ (mainchainHash2 : List Nat) (bestBlockHash2 : Option Hash),
        env.status (st.statusCalls + 1) = .ok mainchainHash2 →
        env.currentChainInfo (st.chainInfoCalls + 1) = .ok bestBlockHash2 →
        mainchainHash2.length = HashSize →
        IsEqual (some mainchainHash2) bestBlockHash2 = true →
        syncLoop env (passes + 1) st =
          ((syncLoop env passes
              ⟨st.waits + 2, st.statusCalls + 2, st.chainInfoCalls + 2, st.randCalls + 1⟩).1,
            [.tick, .checkSync (some hashMismatchError),
             .sleep (10 + env.Intn st.randCalls % 10), .checkSync none] ++
            (syncLoop env passes
              ⟨st.waits + 2, st.statusCalls + 2, st.chainInfoCalls + 2,
                st.randCalls + 1⟩).2)) ∧
      (∀ (mainchainHash2 : List Nat) (bestBlockHash2 : Option Hash),
        env.status (st.statusCalls + 1) = .ok mainchainHash2 →
        env.currentChainInfo (st.chainInfoCalls + 1) = .ok bestBlockHash2 →
        mainchainHash2.length = HashSize →
        IsEqual (some mainchainHash2) bestBlockHash2 = false →
        syncLoop env (passes + 1) st =
          (.returned (some hashMismatchError),
            [.tick, .checkSync (some hashMismatchError),
             .sleep (10 + env.Intn st.randCalls % 10), .checkSync (some hashMismatchError),
             .tickerStop]))) ∧
    ∃ rounds ending,
      (checkMatcherWalletBlockchainSync env fuel).2 =
        roundsEvents rounds ++ SyncEnding.events ending ∧
      (checkMatcherWalletBlockchainSync env fuel).1 = SyncEnding.outcome ending ∧
      Follows env rounds ending fuel ⟨0, 0, 0, 0⟩ ∧
      (∀ r ∈ rounds, SyncRound.jitterOk r = true) ∧
      SyncEnding.jitterOk ending = true := by
  refine ⟨fun w => ?_, fun st => checkSync_answers env st,
    fun st passes m b hsel hm hw hlen hne =>
      syncLoop_mismatch_tick env st passes m b hsel hm hw hlen hne, ?_⟩
  · cases h1 : env.ctxCanceledBy w <;> cases h2 : env.tickChosen w <;> simp [selectTick, h1, h2]
  · obtain ⟨rounds, ending, h1, h2, h3⟩ := syncLoop_follows env fuel ⟨0, 0, 0, 0⟩
    exact ⟨rounds, ending, h1, h2, h3, (follows_jitterOk env ending rounds fuel _ h3).1,
      (follows_jitterOk env ending rounds fuel _ h3).2⟩

/-- Witness of C3: on `recoveringEnv` the `select` of the first pass takes the
ticker, the first check fails on differing hashes and the recheck, on the next
answers, finds them equal, so the loop goes on; on `outOfSyncEnv` the recheck
finds them different again and the mismatch error is returned; the run of
`recoveringEnv` decomposes as its answers dictate. -/
theorem checkMatcherWalletBlockchainSync_second_consecutive_witness :
    (selectTick recoveringEnv 0 = true ↔
      (recoveringEnv.ctxCanceledBy 0 = false ∨ recoveringEnv.tickChosen 0 = true)) ∧
    checkSync recoveringEnv ⟨1, 0, 0, 0⟩ = (some hashMismatchError, ⟨1, 1, 1, 0⟩) ∧
    checkSync recoveringEnv ⟨2, 1, 1, 1⟩ = (none, ⟨2, 2, 2, 1⟩) ∧
    syncLoop recoveringEnv (4 + 1) ⟨0, 0, 0, 0⟩ =
      ((syncLoop recoveringEnv 4 ⟨0 + 2, 0 + 2, 0 + 2, 0 + 1⟩).1,
        [.tick, .checkSync (some hashMismatchError),
         .sleep (10 + recoveringEnv.Intn 0 % 10), .checkSync none] ++
        (syncLoop recoveringEnv 4 ⟨0 + 2, 0 + 2, 0 + 2, 0 + 1⟩).2) ∧
    syncLoop outOfSyncEnv (4 + 1) ⟨0, 0, 0, 0⟩ =
      (.returned (some hashMismatchError),
        [.tick, .checkSync (some hashMismatchError),
         .sleep (10 + outOfSyncEnv.Intn 0 % 10), .checkSync (some hashMismatchError),
         .tickerStop]) ∧
    ∃ rounds ending,
      (checkMatcherWalletBlockchainSync recoveringEnv 5).2 =
        roundsEvents rounds ++ SyncEnding.events ending ∧
      (checkMatcherWalletBlockchainSync recoveringEnv 5).1 = SyncEnding.outcome ending ∧
      Follows recoveringEnv rounds ending 5 ⟨0, 0, 0, 0⟩ ∧
      (∀ r ∈ rounds, SyncRound.jitterOk r = true) ∧
      SyncEnding.jitterOk ending = true :=
  ⟨(checkMatcherWalletBlockchainSync_second_consecutive recoveringEnv 5).1 0,
    ((((checkMatcherWalletBlockchainSync_second_consecutive recoveringEnv 5).2.1
      ⟨1, 0, 0, 0⟩).2 (List.replicate 32 0) rfl).2 (some (List.replicate 32 1)) rfl).2.1
      (by decide) (by decide),
    ((((checkMatcherWalletBlockchainSync_second_consecutive recoveringEnv 5).2.1
      ⟨2, 1, 1, 1⟩).2 (List.replicate 32 0) rfl).2 (some (List.replicate 32 0)) rfl).2.2
      (by decide) (by decide),
    ((checkMatcherWalletBlockchainSync_second_consecutive recoveringEnv 5).2.2.1
      ⟨0, 0, 0, 0⟩ 4 (List.replicate 32 0) (some (List.replicate 32 1)) (by decide) rfl rfl
      (by decide) (by decide)).1 (List.replicate 32 0) (some (List.replicate 32 0)) rfl rfl
      (by decide) (by decide),
    ((checkMatcherWalletBlockchainSync_second_consecutive outOfSyncEnv 5).2.2.1
      ⟨0, 0, 0, 0⟩ 4 (List.replicate 32 0) (some (List.replicate 32 1)) (by decide) rfl rfl
      (by decide) (by decide)).2 (List.replicate 32 0) (some (List.replicate 32 1)) rfl rfl
      (by decide) (by decide),
    (checkMatcherWalletBlockchainSync_second_consecutive recoveringEnv 5).2.2.2⟩

/-- C9: on `canceledDuringJitterEnv` the wait context is canceled during the
jitter sleep that follows the first failed check, and
`checkMatcherWalletBlockchainSync` returns the error of the failed recheck
instead of nil, for every budget of at least one pass. -/
theorem checkMatcherWalletBlockchainSync_canceled_during_jitter :
    canceledDuringJitterEnv.ctxCanceledBy 0 = false ∧
    canceledDuringJitterEnv.ctxCanceledBy 1 = true ∧
    ∀ fuel, checkMatcherWalletBlockchainSync canceledDuringJitterEnv (fuel + 1) =
      (.returned (some (.wrap (.base "context canceled") "error checking status of matcher")),
       [.tick, .checkSync (some hashMismatchError), .sleep 13,
        .checkSync (some (.wrap (.base "context canceled")
          "error checking status of matcher")), .tickerStop]) :=
  ⟨rfl, rfl, fun _ => rfl⟩

theorem finishSession_path (env : SessionEnv) (cfg : Config) (session : Session) (fuel : Nat)
    (sv : List SaveEvent) :
    ∃ p : Path, (finishSession env cfg session fuel).1 = p.outcome ∧
      passedTrace 7 ++ ([.call .saveSession] ++ sv.map .save ++ [.ret .saveSession false] ++
        (finishSession env cfg session fuel).2.2) = p.trace ∧ p.sound env := by
  unfold finishSession
  by_cases hskip : cfg.SkipWaitPublishedTxs = true
  · exact ⟨.skipped sv, by simp [hskip, Path.outcome], by simp [hskip, Path.trace], trivial⟩
  · rcases hw : waitForPublishedTxs env.pub session fuel with ⟨o, pv⟩
    rcases o with (_ | e) | _
    · exact ⟨.completed sv pv, by simp [hskip, Path.outcome], by simp [hskip, Path.trace],
        trivial⟩
    · exact ⟨.waitFailed e sv pv, by simp [hskip, Path.outcome], by simp [hskip, Path.trace],
        trivial⟩
    · exact ⟨.stillWaiting sv pv, by simp [hskip, Path.outcome], by simp [hskip, Path.trace],
        trivial⟩

theorem saveAndFinish_path (env : SessionEnv) (cfg : Config) (session : Session) (fuel : Nat) :
    ∃ p : Path, (saveAndFinish env cfg session fuel).1 = p.outcome ∧
      passedTrace 7 ++ (saveAndFinish env cfg session fuel).2.2 = p.trace ∧ p.sound env := by
  unfold saveAndFinish
  rcases hs : saveSession env.fs session cfg with ⟨_ | e, sv⟩
  · obtain ⟨q, h1, h2, h3⟩ := finishSession_path env cfg session fuel sv
    exact ⟨q, by simpa [Run.after] using h1, by simpa [Run.after] using h2, h3⟩
  · exact ⟨.saveFailed e sv, by simp [Path.outcome], by simp [Path.trace], trivial⟩

theorem fundSplitAndOn_path (env : SessionEnv) (cfg : Config) (session : Session) (fuel : Nat) :
    ∃ p : Path, (fundSplitAndOn env cfg session fuel).1 = p.outcome ∧
      passedTrace 6 ++ (fundSplitAndOn env cfg session fuel).2.2 = p.trace ∧ p.sound env := by
  unfold fundSplitAndOn
  rcases hs : env.fundSplitTx session with ⟨_ | e, s1⟩
  · obtain ⟨q, h1, h2, h3⟩ := saveAndFinish_path env cfg s1 fuel
    exact ⟨q, by simpa [Run.after] using h1,
      by simpa [Run.after, passedTrace] using h2, h3⟩
  · exact ⟨.fundSplitFailed e, by simp [Path.outcome], by simp [Path.trace], trivial⟩

theorem monitorAndOn_path (env : SessionEnv) (cfg : Config) (session : Session) (fuel : Nat) :
    ∃ p : Path, (monitorAndOn env cfg session fuel).1 = p.outcome ∧
      passedTrace 5 ++ (monitorAndOn env cfg session fuel).2.2 = p.trace ∧ p.sound env := by
  unfold monitorAndOn
  rcases hs : env.monitorSession session with ⟨_ | e, s1⟩
  · obtain ⟨q, h1, h2, h3⟩ := fundSplitAndOn_path env cfg s1 fuel
    exact ⟨q, by simpa [Run.after] using h1,
      by simpa [Run.after, passedTrace] using h2, h3⟩
  · exact ⟨.monitorFailed e, by simp [Path.outcome], by simp [Path.trace], trivial⟩

theorem fundTicketAndOn_path (env : SessionEnv) (cfg : Config) (session : Session)
    (fuel : Nat) :
    ∃ p : Path, (fundTicketAndOn env cfg session fuel).1 = p.outcome ∧
      passedTrace 4 ++ (fundTicketAndOn env cfg session fuel).2.2 = p.trace ∧ p.sound env := by
  unfold fundTicketAndOn
  rcases hs : env.fundTicket session with ⟨_ | e, s1⟩
  · obtain ⟨q, h1, h2, h3⟩ := monitorAndOn_path env cfg s1 fuel
    exact ⟨q, by simpa [Run.after] using h1,
      by simpa [Run.after, passedTrace] using h2, h3⟩
  · exact ⟨.fundTicketFailed e, by simp [Path.outcome], by simp [Path.trace], trivial⟩

theorem signAndOn_path (env : SessionEnv) (cfg : Config) (session : Session) (fuel : Nat) :
    ∃ p : Path, (signAndOn env cfg session fuel).1 = p.outcome ∧
      passedTrace 3 ++ (signAndOn env cfg session fuel).2.2 = p.trace ∧ p.sound env := by
  unfold signAndOn
  rcases hs : env.signTransactions session with ⟨_ | e, s1⟩
  · obtain ⟨q, h1, h2, h3⟩ := fundTicketAndOn_path env cfg s1 fuel
    exact ⟨q, by simpa [Run.after] using h1,
      by simpa [Run.after, passedTrace] using h2, h3⟩
  · exact ⟨.signFailed e, by simp [Path.outcome], by simp [Path.trace],
      ⟨session, by simp [hs]⟩⟩

theorem generateTicketAndOn_path (env : SessionEnv) (cfg : Config) (session : Session)
    (fuel : Nat) :
    ∃ p : Path, (generateTicketAndOn env cfg session fuel).1 = p.outcome ∧
      passedTrace 2 ++ (generateTicketAndOn env cfg session fuel).2.2 = p.trace ∧
      p.sound env := by
  unfold generateTicketAndOn
  rcases hs : env.generateTicket session with ⟨_ | e, s1⟩
  · obtain ⟨q, h1, h2, h3⟩ := signAndOn_path env cfg s1 fuel
    exact ⟨q, by simpa [Run.after] using h1,
      by simpa [Run.after, passedTrace] using h2, h3⟩
  · exact ⟨.ticketFailed e, by simp [Path.outcome], by simp [Path.trace], trivial⟩

theorem generateOutputsAndOn_path (env : SessionEnv) (cfg : Config) (session : Session)
    (fuel : Nat) :
    ∃ p : Path, (generateOutputsAndOn env cfg session fuel).1 = p.outcome ∧
      passedTrace 1 ++ (generateOutputsAndOn env cfg session fuel).2.2 = p.trace ∧
      p.sound env := by
  unfold generateOutputsAndOn
  rcases hs : env.generateOutputs session with ⟨_ | e, s1⟩
  · obtain ⟨q, h1, h2, h3⟩ := generateTicketAndOn_path env cfg s1 fuel
    exact ⟨q, by simpa [Run.after] using h1,
      by simpa [Run.after, passedTrace] using h2, h3⟩
  · exact ⟨.outputsFailed e, by simp [Path.outcome], by simp [Path.trace],
      ⟨session, by simp [hs]⟩⟩

theorem buySplitTicketInSession_path (env : SessionEnv) (cfg : Config) (session : Session)
    (fuel : Nat) :
    ∃ p : Path, (buySplitTicketInSession env cfg session fuel).1 = p.outcome ∧
      (buySplitTicketInSession env cfg session fuel).2.2 = p.trace ∧ p.sound env := by
  unfold buySplitTicketInSession
  rcases hc : env.currentChainInfo with e | ci
  · exact ⟨.chainInfoFailed e, by simp [Path.outcome], by simp [Path.trace], hc⟩
  · by_cases h1 : IsEqual ci.bestBlockHash (some session.mainchainHash) = true
    · by_cases h2 : ci.bestBlockHeight = session.mainchainHeight
      · by_cases h3 : ci.ticketPrice = session.TicketPrice
        · obtain ⟨q, h4, h5, h6⟩ := generateOutputsAndOn_path env cfg session fuel
          exact ⟨q, by simpa [h1, h2, h3, Run.after] using h4,
            by simpa [h1, h2, h3, Run.after, passedTrace] using h5, h6⟩
        · exact ⟨.priceDiffers, by simp [h1, h2, h3, Path.outcome],
            by simp [h1, h2, h3, Path.trace, passedTrace], trivial⟩
      · exact ⟨.heightDiffers, by simp [h1, h2, Path.outcome],
          by simp [h1, h2, Path.trace, passedTrace], trivial⟩
    · exact ⟨.tipDiffers, by simp [h1, Path.outcome],
        by simp [h1, Path.trace, passedTrace], trivial⟩

theorem stagesOf_append (a b : List Event) : stagesOf (a ++ b) = stagesOf a ++ stagesOf b := by
  simp [stagesOf]

theorem stagesOf_save (sv : List SaveEvent) : stagesOf (sv.map .save) = [] := by
  induction sv with
  | nil => rfl
  | cons e sv ih => simp [stagesOf]

theorem stagesOf_pub (pv : List PubEvent) : stagesOf (pv.map .pub) = [] := by
  induction pv with
  | nil => rfl
  | cons e pv ih => simp [stagesOf]

theorem stagesOf_passed7 : stagesOf (passedTrace 7) = fundingStages := by
  simp [passedTrace, stagesOf, fundingStages]

theorem Path.stages_cases (p : Path) :
    stagesOf p.trace <+: fundingStages ++ [.StageSkippedWaiting, .StageSessionEndedSuccessfully]
    ∨ stagesOf p.trace <+: fundingStages ++ [.StageSessionEndedSuccessfully] := by
  cases p with
  | skipped sv =>
    left
    simp only [Path.trace, stagesOf_append, stagesOf_save, stagesOf_pub, stagesOf_passed7]
    simp [stagesOf, fundingStages]
  | saveFailed err sv =>
    left
    simp only [Path.trace, stagesOf_append, stagesOf_save, stagesOf_pub, stagesOf_passed7]
    simp [stagesOf, fundingStages]
  | stillWaiting sv pv =>
    left
    simp only [Path.trace, stagesOf_append, stagesOf_save, stagesOf_pub, stagesOf_passed7]
    simp [stagesOf, fundingStages]
  | waitFailed err sv pv =>
    left
    simp only [Path.trace, stagesOf_append, stagesOf_save, stagesOf_pub, stagesOf_passed7]
    simp [stagesOf, fundingStages]
  | completed sv pv =>
    right
    simp only [Path.trace, stagesOf_append, stagesOf_save, stagesOf_pub, stagesOf_passed7]
    simp [stagesOf, fundingStages]
  | _ =>
    left
    simp [Path.trace, passedTrace, stagesOf, fundingStages]

/-- C6: whatever the collaborators return, the stages passed to `reportStage`
by `buySplitTicketInSession` form a prefix of the ten funding stages followed
either by `StageSkippedWaiting` and `StageSessionEndedSuccessfully` or by
`StageSessionEndedSuccessfully` alone, and no stage occurs twice. -/
theorem buySplitTicketInSession_stages_prefix (env : SessionEnv) (cfg : Config)
    (session : Session) (fuel : Nat) :
    (stagesOf (buySplitTicketInSession env cfg session fuel).2.2 <+:
        fundingStages ++ [.StageSkippedWaiting, .StageSessionEndedSuccessfully]
      ∨ stagesOf (buySplitTicketInSession env cfg session fuel).2.2 <+:
        fundingStages ++ [.StageSessionEndedSuccessfully]) ∧
    (stagesOf (buySplitTicketInSession env cfg session fuel).2.2).Nodup := by
  obtain ⟨p, -, htr, -⟩ := buySplitTicketInSession_path env cfg session fuel
  rw [htr]
  have h := Path.stages_cases p
  refine ⟨h, ?_⟩
  rcases h with h | h
  · exact List.Nodup.sublist h.sublist (by decide)
  · exact List.Nodup.sublist h.sublist (by decide)

/-- C4 fails as stated: on `expiredSessionEnv` every step up to `saveSession`
succeeds and `waitForPublishedTxs` fails on its ended context; none of
`generateTicket`, `fundTicket` and `fundSplitTx` failed, yet the error returned
by `buySplitTicketInSession` is an `unreportableError`. -/
theorem buySplitTicketInSession_wait_error_tagged :
    (buySplitTicketInSession expiredSessionEnv sampleCfg sampleSession 1).1 =
      .returned (some (.unreportableError (.wrap (.wrap (.base "context deadline exceeded")
        "context error while waiting forpublished txs")
        "error waiting for txs to be published"))) ∧
    Event.ret .waitForPublishedTxs true ∈
      (buySplitTicketInSession expiredSessionEnv sampleCfg sampleSession 1).2.2 ∧
    Event.ret .generateTicket true ∉
      (buySplitTicketInSession expiredSessionEnv sampleCfg sampleSession 1).2.2 ∧
    Event.ret .fundTicket true ∉
      (buySplitTicketInSession expiredSessionEnv sampleCfg sampleSession 1).2.2 ∧
    Event.ret .fundSplitTx true ∉
      (buySplitTicketInSession expiredSessionEnv sampleCfg sampleSession 1).2.2 := by
  decide

theorem Path.unreportable_iff (env : SessionEnv) (p : Path) (err : GoError)
    (hci : ∀ e, env.currentChainInfo = .error e → e.isUnreportable = false)
    (hgo : ∀ s e, (env.generateOutputs s).1 = some e → e.isUnreportable = false)
    (hst : ∀ s e, (env.signTransactions s).1 = some e → e.isUnreportable = false)
    (hs : p.sound env) (hret : p.outcome = .returned (some err)) :
    err.isUnreportable = true ↔
      (Event.ret .generateTicket true ∈ p.trace ∨ Event.ret .fundTicket true ∈ p.trace ∨
       Event.ret .fundSplitTx true ∈ p.trace ∨
       Event.ret .waitForPublishedTxs true ∈ p.trace) := by
  cases p with
  | chainInfoFailed e =>
    simp only [Path.outcome, Outcome.returned.injEq, Option.some.injEq] at hret
    subst hret
    simp [Path.trace, hci e hs]
  | outputsFailed e =>
    simp only [Path.outcome, Outcome.returned.injEq, Option.some.injEq] at hret
    subst hret
    obtain ⟨s0, h0⟩ := hs
    simp [Path.trace, passedTrace, hgo s0 e h0]
  | signFailed e =>
    simp only [Path.outcome, Outcome.returned.injEq, Option.some.injEq] at hret
    subst hret
    obtain ⟨s0, h0⟩ := hs
    simp [Path.trace, passedTrace, hst s0 e h0]
  | skipped sv => simp [Path.outcome] at hret
  | stillWaiting sv pv => simp [Path.outcome] at hret
  | completed sv pv => simp [Path.outcome] at hret
  | _ =>
    simp only [Path.outcome, Outcome.returned.injEq, Option.some.injEq] at hret
    subst hret
    simp [Path.trace, passedTrace, GoError.isUnreportable]

/-- C4, amended: when the collaborators' own errors are not tagged, an error
returned by `buySplitTicketInSession` is an `unreportableError` if and only if
it was returned by `generateTicket`, `fundTicket`, `fundSplitTx` or
`waitForPublishedTxs`; an error from the chain-info check, `generateOutputs`,
`signTransactions`, `monitorSession` or `saveSession` is returned untagged. -/
theorem buySplitTicketInSession_unreportable_iff (env : SessionEnv) (cfg : Config)
    (session : Session) (fuel : Nat) (err : GoError)
    (hci : ∀ e, env.currentChainInfo = .error e → e.isUnreportable = false)
    (hgo : ∀ s e, (env.generateOutputs s).1 = some e → e.isUnreportable = false)
    (hst : ∀ s e, (env.signTransactions s).1 = some e → e.isUnreportable = false)
    (hret : (buySplitTicketInSession env cfg session fuel).1 = .returned (some err)) :
    err.isUnreportable = true ↔
      (Event.ret .generateTicket true ∈ (buySplitTicketInSession env cfg session fuel).2.2 ∨
       Event.ret .fundTicket true ∈ (buySplitTicketInSession env cfg session fuel).2.2 ∨
       Event.ret .fundSplitTx true ∈ (buySplitTicketInSession env cfg session fuel).2.2 ∨
       Event.ret .waitForPublishedTxs true ∈
        (buySplitTicketInSession env cfg session fuel).2.2) := by
  obtain ⟨p, ho, htr, hs⟩ := buySplitTicketInSession_path env cfg session fuel
  rw [htr]
  exact Path.unreportable_iff env p err hci hgo hst hs (ho ▸ hret)

/-- Witness of the amended C4 on `expiredSessionEnv`, where the publication
wait fails. -/
theorem buySplitTicketInSession_unreportable_iff_witness :
    GoError.isUnreportable (.unreportableError (.wrap (.wrap (.base "context deadline exceeded")
        "context error while waiting forpublished txs")
        "error waiting for txs to be published")) = true ↔
      (Event.ret .generateTicket true ∈
        (buySplitTicketInSession expiredSessionEnv sampleCfg sampleSession 1).2.2 ∨
       Event.ret .fundTicket true ∈
        (buySplitTicketInSession expiredSessionEnv sampleCfg sampleSession 1).2.2 ∨
       Event.ret .fundSplitTx true ∈
        (buySplitTicketInSession expiredSessionEnv sampleCfg sampleSession 1).2.2 ∨
       Event.ret .waitForPublishedTxs true ∈
        (buySplitTicketInSession expiredSessionEnv sampleCfg sampleSession 1).2.2) :=
  buySplitTicketInSession_unreportable_iff expiredSessionEnv sampleCfg sampleSession 1 _
    (fun e h => by simp [expiredSessionEnv] at h)
    (fun s e h => by simp [expiredSessionEnv, okStep] at h)
    (fun s e h => by simp [expiredSessionEnv, okStep] at h)
    (by decide)

/-- C7 fails as stated: on `okSessionEnv` with `SkipWaitPublishedTxs` set the
executor returns nil, but the stage reported right after `StageSplitTxFunded`
is `StageSkippedWaiting`, so that `StageSessionEndedSuccessfully` does not
follow `StageSplitTxFunded` directly. -/
theorem buySplitTicketInSession_skip_reports_marker :
    (buySplitTicketInSession okSessionEnv skipCfg sampleSession 0).1 = .returned none ∧
    stagesOf (buySplitTicketInSession okSessionEnv skipCfg sampleSession 0).2.2 =
      fundingStages ++ [.StageSkippedWaiting, .StageSessionEndedSuccessfully] ∧
    ¬ ([Stage.StageSplitTxFunded, Stage.StageSessionEndedSuccessfully] <:+:
      stagesOf (buySplitTicketInSession okSessionEnv skipCfg sampleSession 0).2.2) := by
  decide

/-- C7, amended: with `SkipWaitPublishedTxs` set, when every step up to and
including `saveSession` succeeds, `buySplitTicketInSession` returns nil; after
`StageSplitTxFunded` it runs `saveSession` and reports `StageSkippedWaiting`
and then `StageSessionEndedSuccessfully`, nothing else; `waitForPublishedTxs`
is not called, neither wallet probe is called and no publication notification
is sent. -/
theorem buySplitTicketInSession_skip_wait (env : SessionEnv) (cfg : Config)
    (session s1 s2 s3 s4 s5 s6 : Session) (fuel : Nat) (chainInfo : ChainInfo)
    (hskip : cfg.SkipWaitPublishedTxs = true)
    (hci : env.currentChainInfo = .ok chainInfo)
    (htip : IsEqual chainInfo.bestBlockHash (some session.mainchainHash) = true)
    (hheight : chainInfo.bestBlockHeight = session.mainchainHeight)
    (hprice : chainInfo.ticketPrice = session.TicketPrice)
    (h1 : env.generateOutputs session = (none, s1))
    (h2 : env.generateTicket s1 = (none, s2))
    (h3 : env.signTransactions s2 = (none, s3))
    (h4 : env.fundTicket s3 = (none, s4))
    (h5 : env.monitorSession s4 = (none, s5))
    (h6 : env.fundSplitTx s5 = (none, s6))
    (hsave : (saveSession env.fs s6 cfg).1 = none) :
    (buySplitTicketInSession env cfg session fuel).1 = .returned none ∧
    (buySplitTicketInSession env cfg session fuel).2.2 =
      passedTrace 7 ++ [.call .saveSession] ++ (saveSession env.fs s6 cfg).2.map .save ++
        [.ret .saveSession false, .reportStage .StageSkippedWaiting,
         .reportStage .StageSessionEndedSuccessfully] ∧
    stagesOf (buySplitTicketInSession env cfg session fuel).2.2 =
      fundingStages ++ [.StageSkippedWaiting, .StageSessionEndedSuccessfully] ∧
    Event.call .waitForPublishedTxs ∉ (buySplitTicketInSession env cfg session fuel).2.2 ∧
    ∀ e : PubEvent, Event.pub e ∉ (buySplitTicketInSession env cfg session fuel).2.2 := by
  have htr : buySplitTicketInSession env cfg session fuel =
      (.returned none, s6,
        passedTrace 7 ++ [.call .saveSession] ++ (saveSession env.fs s6 cfg).2.map .save ++
        [.ret .saveSession false, .reportStage .StageSkippedWaiting,
         .reportStage .StageSessionEndedSuccessfully]) := by
    simp [buySplitTicketInSession, hci, htip, hheight, hprice, generateOutputsAndOn, h1,
      generateTicketAndOn, h2, signAndOn, h3, fundTicketAndOn, h4, monitorAndOn, h5,
      fundSplitAndOn, h6, saveAndFinish, hsave, finishSession, hskip, Run.after, passedTrace]
  rw [htr]
  refine ⟨rfl, rfl, ?_, ?_, ?_⟩
  · simp only [stagesOf_append, stagesOf_save, stagesOf_passed7]
    simp [stagesOf]
  · simp [passedTrace]
  · intro e
    simp [passedTrace]

/-- Witness of the amended C7 on `okSessionEnv` with `skipCfg`. -/
theorem buySplitTicketInSession_skip_wait_witness :
    (buySplitTicketInSession okSessionEnv skipCfg sampleSession 0).1 = .returned none ∧
    (buySplitTicketInSession okSessionEnv skipCfg sampleSession 0).2.2 =
      passedTrace 7 ++ [.call .saveSession] ++
        (saveSession okSessionEnv.fs sampleSession skipCfg).2.map .save ++
        [.ret .saveSession false, .reportStage .StageSkippedWaiting,
         .reportStage .StageSessionEndedSuccessfully] ∧
    stagesOf (buySplitTicketInSession okSessionEnv skipCfg sampleSession 0).2.2 =
      fundingStages ++ [.StageSkippedWaiting, .StageSessionEndedSuccessfully] ∧
    Event.call .waitForPublishedTxs ∉
      (buySplitTicketInSession okSessionEnv skipCfg sampleSession 0).2.2 ∧
    ∀ e : PubEvent, Event.pub e ∉
      (buySplitTicketInSession okSessionEnv skipCfg sampleSession 0).2.2 :=
  buySplitTicketInSession_skip_wait okSessionEnv skipCfg sampleSession sampleSession
    sampleSession sampleSession sampleSession sampleSession sampleSession 0 sampleChainInfo
    rfl rfl (by decide) rfl rfl rfl rfl rfl rfl rfl rfl (by decide)

theorem before_nil (a b : Event) : Before a b [] := by
  intro pre post h
  simp at h

theorem before_cons (a b e : Event) (tr : List Event) :
    Before a b (e :: tr) ↔ e ≠ b ∧ (e = a ∨ Before a b tr) := by
  constructor
  · intro H
    refine ⟨?_, ?_⟩
    · intro heb
      have := H [] tr (by simp [heb])
      simp at this
    · by_cases hea : e = a
      · exact Or.inl hea
      · right
        intro pre post h
        have := H (e :: pre) post (by simp [h])
        rcases List.mem_cons.mp this with h1 | h1
        · exact absurd h1.symm hea
        · exact h1
  · rintro ⟨hne, h⟩ pre post heq
    cases pre with
    | nil =>
      simp only [List.nil_append, List.cons.injEq] at heq
      exact absurd heq.1 hne
    | cons x pre =>
      simp only [List.cons_append, List.cons.injEq] at heq
      obtain ⟨rfl, htr⟩ := heq
      rcases h with rfl | h
      · exact List.mem_cons_self _ _
      · exact List.mem_cons_of_mem _ (h pre post htr)

theorem before_save_append (a b : Event) (sv : List SaveEvent) (tr : List Event)
    (ha : ∀ e, Event.save e ≠ a) (hb : ∀ e, Event.save e ≠ b) :
    Before a b (sv.map .save ++ tr) ↔ Before a b tr := by
  induction sv with
  | nil => simp
  | cons e sv ih => simp [before_cons, ha e, hb e, ih]

theorem before_pub_append (a b : Event) (pv : List PubEvent) (tr : List Event)
    (ha : ∀ e, Event.pub e ≠ a) (hb : ∀ e, Event.pub e ≠ b) :
    Before a b (pv.map .pub ++ tr) ↔ Before a b tr := by
  induction pv with
  | nil => simp
  | cons e pv ih => simp [before_cons, ha e, hb e, ih]

theorem Path.order (p : Path) :
    Before (.ret .generateTicket false) (.call .saveSession) p.trace ∧
    Before (.ret .fundTicket false) (.call .saveSession) p.trace ∧
    Before (.ret .fundSplitTx false) (.call .saveSession) p.trace ∧
    Before (.ret .saveSession false) (.call .waitForPublishedTxs) p.trace ∧
    (∀ e : PubEvent, Before (.ret .saveSession false) (.pub e) p.trace) := by
  cases p <;>
    simp [Path.trace, passedTrace, before_cons, before_nil, before_save_append,
      before_pub_append]

theorem Path.unpersisted (p : Path) (op : Op)
    (hop : op = .generateTicket ∨ op = .fundTicket ∨ op = .fundSplitTx)
    (hfail : Event.ret op true ∈ p.trace) :
    Event.call .saveSession ∉ p.trace ∧ ∀ e : SaveEvent, Event.save e ∉ p.trace := by
  rcases hop with rfl | rfl | rfl <;> cases p <;>
    simp [Path.trace, passedTrace] at hfail ⊢

theorem Path.wait_error_persisted (p : Path)
    (hfail : Event.ret .waitForPublishedTxs true ∈ p.trace) :
    Event.ret .saveSession false ∈ p.trace := by
  cases p <;> simp [Path.trace, passedTrace] at hfail ⊢

/-- C8: in every run of `buySplitTicketInSession`, `saveSession` is called only
after `generateTicket`, `fundTicket` and `fundSplitTx` have each returned
without error, and `waitForPublishedTxs` is called (and any of its probes or
notifications happens) only after `saveSession` has returned without error;
when one of the three matching-service operations fails, `saveSession` is
never called and nothing is written; when the publication wait fails,
`saveSession` has returned without error. -/
theorem buySplitTicketInSession_persist_order (env : SessionEnv) (cfg : Config)
    (session : Session) (fuel : Nat) :
    Before (.ret .generateTicket false) (.call .saveSession)
      (buySplitTicketInSession env cfg session fuel).2.2 ∧
    Before (.ret .fundTicket false) (.call .saveSession)
      (buySplitTicketInSession env cfg session fuel).2.2 ∧
    Before (.ret .fundSplitTx false) (.call .saveSession)
      (buySplitTicketInSession env cfg session fuel).2.2 ∧
    Before (.ret .saveSession false) (.call .waitForPublishedTxs)
      (buySplitTicketInSession env cfg session fuel).2.2 ∧
    (∀ e : PubEvent, Before (.ret .saveSession false) (.pub e)
      (buySplitTicketInSession env cfg session fuel).2.2) ∧
    (∀ op : Op, op = .generateTicket ∨ op = .fundTicket ∨ op = .fundSplitTx →
      Event.ret op true ∈ (buySplitTicketInSession env cfg session fuel).2.2 →
      Event.call .saveSession ∉ (buySplitTicketInSession env cfg session fuel).2.2 ∧
      ∀ e : SaveEvent, Event.save e ∉ (buySplitTicketInSession env cfg session fuel).2.2) ∧
    (Event.ret .waitForPublishedTxs true ∈ (buySplitTicketInSession env cfg session fuel).2.2 →
      Event.ret .saveSession false ∈ (buySplitTicketInSession env cfg session fuel).2.2) := by
  obtain ⟨p, -, htr, -⟩ := buySplitTicketInSession_path env cfg session fuel
  rw [htr]
  obtain ⟨h1, h2, h3, h4, h5⟩ := Path.order p
  exact ⟨h1, h2, h3, h4, h5, fun op hop hfail => Path.unpersisted p op hop hfail,
    fun hfail => Path.wait_error_persisted p hfail⟩

/-- Witness of C8: on `fundTicketFailsEnv` the failure of `fundTicket` leaves
`saveSession` uncalled, and on `expiredSessionEnv` the failed publication wait
comes after a successful `saveSession`. -/
theorem buySplitTicketInSession_persist_order_witness :
    (Event.call .saveSession ∉
        (buySplitTicketInSession fundTicketFailsEnv sampleCfg sampleSession 1).2.2 ∧
      ∀ e : SaveEvent, Event.save e ∉
        (buySplitTicketInSession fundTicketFailsEnv sampleCfg sampleSession 1).2.2) ∧
    Event.ret .saveSession false ∈
      (buySplitTicketInSession expiredSessionEnv sampleCfg sampleSession 1).2.2 :=
  ⟨(buySplitTicketInSession_persist_order fundTicketFailsEnv sampleCfg sampleSession
      1).2.2.2.2.2.1 .fundTicket (Or.inr (Or.inl rfl)) (by decide),
    (buySplitTicketInSession_persist_order expiredSessionEnv sampleCfg sampleSession
      1).2.2.2.2.2.2 (by decide)⟩

theorem setupStep_all (P : Event → Prop) (op : Op) (answer : Option GoError)
    (msg : Option String) (rest : WaitRun)
    (hcall : P (.call op)) (hret : ∀ b, P (.ret op b)) (hcancel : P .setupCancel)
    (hrest : ∀ e ∈ rest.2, P e) :
    ∀ e ∈ (setupStep op answer msg rest).2, P e := by
  cases answer with
  | none =>
    intro e he
    simp only [setupStep, WaitRun.after, List.mem_append, List.mem_cons,
      List.mem_singleton, List.not_mem_nil, or_false] at he
    rcases he with (rfl | rfl) | he
    · exact hcall
    · exact hret false
    · exact hrest e he
  | some err =>
    intro e he
    simp only [setupStep, List.mem_cons, List.mem_singleton, List.not_mem_nil,
      or_false] at he
    rcases he with rfl | rfl | rfl
    · exact hcall
    · exact hret true
    · exact hcancel

theorem after_all (P : Event → Prop) (events : List Event) (rest : WaitRun)
    (hev : ∀ e ∈ events, P e) (hrest : ∀ e ∈ rest.2, P e) :
    ∀ e ∈ (WaitRun.after events rest).2, P e := by
  intro e he
  simp only [WaitRun.after, List.mem_append] at he
  rcases he with he | he
  · exact hev e he
  · exact hrest e he

theorem waitPhase_setup (env : WaitEnv) (cfg : Config) :
    ∀ e ∈ (waitPhase env cfg).2, Event.isSetup e = true := by
  unfold waitPhase
  rcases env.waitSelect with _ | _ | _ | _ | _ | _
  case dcrdErr => by_cases h : dcrdWatched cfg = true <;> simp [h, Event.isSetup]
  all_goals simp [Event.isSetup]

theorem statusAndWait_setup (env : WaitEnv) (cfg : Config) :
    ∀ e ∈ (statusAndWait env cfg).2, Event.isSetup e = true := by
  unfold statusAndWait
  refine setupStep_all _ _ _ _ _ rfl (fun _ => rfl) rfl ?_
  refine after_all _ _ _ (by simp [Event.isSetup]) ?_
  refine setupStep_all _ _ _ _ _ rfl (fun _ => rfl) rfl ?_
  exact after_all _ _ _ (by simp [Event.isSetup]) (waitPhase_setup env cfg)

theorem connectMatcherAndOn_setup (env : WaitEnv) (cfg : Config) :
    ∀ e ∈ (connectMatcherAndOn env cfg).2, Event.isSetup e = true := by
  unfold connectMatcherAndOn
  refine after_all _ _ _ (by simp [Event.isSetup]) ?_
  exact setupStep_all _ _ _ _ _ rfl (fun _ => rfl) rfl (statusAndWait_setup env cfg)

theorem matcherSetup_setup (env : WaitEnv) (cfg : Config) :
    ∀ e ∈ (matcherSetup env cfg).2, Event.isSetup e = true := by
  unfold matcherSetup
  split
  · split
    · refine setupStep_all _ _ _ _ _ rfl (fun _ => rfl) rfl ?_
      exact after_all _ _ _ (by simp [Event.isSetup]) (connectMatcherAndOn_setup env cfg)
    · refine setupStep_all _ _ _ _ _ rfl (fun _ => rfl) rfl ?_
      exact after_all _ _ _ (by simp [Event.isSetup]) (connectMatcherAndOn_setup env cfg)
  · exact statusAndWait_setup env cfg

theorem walletChecks_setup (env : WaitEnv) (cfg : Config) :
    ∀ e ∈ (walletChecks env cfg).2, Event.isSetup e = true := by
  unfold walletChecks
  refine setupStep_all _ _ _ _ _ rfl (fun _ => rfl) rfl ?_
  refine setupStep_all _ _ _ _ _ rfl (fun _ => rfl) rfl ?_
  refine setupStep_all _ _ _ _ _ rfl (fun _ => rfl) rfl ?_
  exact setupStep_all _ _ _ _ _ rfl (fun _ => rfl) rfl (matcherSetup_setup env cfg)

theorem waitForSession_setup (env : WaitEnv) (cfg : Config) :
    ∀ e ∈ (waitForSession env cfg).2, Event.isSetup e = true := by
  unfold waitForSession
  split
  · refine after_all _ _ _ (by simp [Event.isSetup]) ?_
    exact setupStep_all _ _ _ _ _ rfl (fun _ => rfl) rfl (walletChecks_setup env cfg)
  · exact walletChecks_setup env cfg

theorem resolveWalletHost_setup (env : BuyEnv) (cfg : Config) :
    ∀ e ∈ (resolveWalletHost env cfg).2, Event.isSetup e = true := by
  unfold resolveWalletHost
  split
  · split
    · simp [Event.isSetup]
    · split <;> simp [Event.isSetup]
  · simp

theorem all_executor_save (sv : List SaveEvent) :
    (sv.map Event.save).all Event.isExecutor = true := by
  simp [List.all_eq_true, Event.isExecutor]

theorem all_executor_pub (pv : List PubEvent) :
    (pv.map Event.pub).all Event.isExecutor = true := by
  simp [List.all_eq_true, Event.isExecutor]

theorem all_executor_passed7 : (passedTrace 7).all Event.isExecutor = true := by
  simp only [passedTrace, List.append_assoc, List.cons_append, List.nil_append]
  rfl

theorem Path.trace_all_executor (p : Path) : p.trace.all Event.isExecutor = true := by
  cases p <;>
    simp only [Path.trace, List.all_append, all_executor_save, all_executor_pub,
      all_executor_passed7, Bool.and_true, Bool.true_and] <;>
    first
      | rfl
      | (simp only [passedTrace, List.append_assoc, List.cons_append, List.nil_append]; rfl)

theorem Path.trace_executor (p : Path) : ∀ e ∈ p.trace, Event.isExecutor e = true := by
  have h := Path.trace_all_executor p
  rw [List.all_eq_true] at h
  exact h

theorem isSetup_not_coordinator (e : Event) (h : Event.isSetup e = true) :
    Event.isBuyingError e = false ∧ Event.isErrorReport e = false ∧ e ≠ .mcClose ∧
    e ≠ .wcClose ∧ e ≠ successStage := by
  cases e <;> simp_all [Event.isSetup, Event.isBuyingError, Event.isErrorReport, successStage]

theorem isExecutor_not_coordinator (e : Event) (h : Event.isExecutor e = true) :
    Event.isBuyingError e = false ∧ Event.isErrorReport e = false ∧ e ≠ .mcClose ∧
    e ≠ .wcClose := by
  cases e <;> simp_all [Event.isExecutor, Event.isBuyingError, Event.isErrorReport]

theorem count_save (sv : List SaveEvent) (x : Event) (h : ∀ e, Event.save e ≠ x) :
    (sv.map Event.save).count x = 0 := by
  rw [List.count_eq_zero]
  intro hx
  obtain ⟨e, -, he⟩ := List.mem_map.mp hx
  exact h e he

theorem count_pub (pv : List PubEvent) (x : Event) (h : ∀ e, Event.pub e ≠ x) :
    (pv.map Event.pub).count x = 0 := by
  rw [List.count_eq_zero]
  intro hx
  obtain ⟨e, -, he⟩ := List.mem_map.mp hx
  exact h e he

theorem count_stage (tr : List Event) (st : Stage) :
    tr.count (.reportStage st) = (stagesOf tr).count st := by
  induction tr with
  | nil => rfl
  | cons e tr ih =>
    cases e <;> simp [stagesOf, List.count_cons, List.filterMap_cons] at ih ⊢ <;> omega

theorem Path.count_success (p : Path) :
    p.trace.count successStage = if p.outcome = .returned none then 1 else 0 := by
  rw [successStage, count_stage]
  cases p with
  | skipped sv =>
    simp only [Path.trace, stagesOf_append, stagesOf_save, stagesOf_pub, stagesOf_passed7]
    simp [stagesOf, fundingStages, Path.outcome]
  | saveFailed err sv =>
    simp only [Path.trace, stagesOf_append, stagesOf_save, stagesOf_pub, stagesOf_passed7]
    simp [stagesOf, fundingStages, Path.outcome]
  | stillWaiting sv pv =>
    simp only [Path.trace, stagesOf_append, stagesOf_save, stagesOf_pub, stagesOf_passed7]
    simp [stagesOf, fundingStages, Path.outcome]
  | waitFailed err sv pv =>
    simp only [Path.trace, stagesOf_append, stagesOf_save, stagesOf_pub, stagesOf_passed7]
    simp [stagesOf, fundingStages, Path.outcome]
  | completed sv pv =>
    simp only [Path.trace, stagesOf_append, stagesOf_save, stagesOf_pub, stagesOf_passed7]
    simp [stagesOf, fundingStages, Path.outcome]
  | _ => simp [Path.trace, passedTrace, stagesOf, Path.outcome]

theorem setup_quiet (l : List Event) (h : ∀ e ∈ l, Event.isSetup e = true) :
    l.count .mcClose = 0 ∧ l.count .wcClose = 0 ∧ l.filter Event.isErrorReport = [] ∧
    l.filter Event.isBuyingError = [] ∧ l.count successStage = 0 := by
  refine ⟨?_, ?_, ?_, ?_, ?_⟩
  · exact List.count_eq_zero.mpr fun hm => (isSetup_not_coordinator _ (h _ hm)).2.2.1 rfl
  · exact List.count_eq_zero.mpr fun hm => (isSetup_not_coordinator _ (h _ hm)).2.2.2.1 rfl
  · refine List.filter_eq_nil_iff.mpr fun e he => ?_
    simp [(isSetup_not_coordinator e (h e he)).2.1]
  · refine List.filter_eq_nil_iff.mpr fun e he => ?_
    simp [(isSetup_not_coordinator e (h e he)).1]
  · exact List.count_eq_zero.mpr fun hm => (isSetup_not_coordinator _ (h _ hm)).2.2.2.2 rfl

theorem executor_quiet (l : List Event) (h : ∀ e ∈ l, Event.isExecutor e = true) :
    l.count .mcClose = 0 ∧ l.count .wcClose = 0 ∧ l.filter Event.isErrorReport = [] ∧
    l.filter Event.isBuyingError = [] := by
  refine ⟨?_, ?_, ?_, ?_⟩
  · exact List.count_eq_zero.mpr fun hm => (isExecutor_not_coordinator _ (h _ hm)).2.2.1 rfl
  · exact List.count_eq_zero.mpr fun hm => (isExecutor_not_coordinator _ (h _ hm)).2.2.2 rfl
  · refine List.filter_eq_nil_iff.mpr fun e he => ?_
    simp [(isExecutor_not_coordinator e (h e he)).2.1]
  · refine List.filter_eq_nil_iff.mpr fun e he => ?_
    simp [(isExecutor_not_coordinator e (h e he)).1]

theorem buySplitTicketInSession_executor (env : SessionEnv) (cfg : Config) (session : Session)
    (fuel : Nat) :
    ∀ e ∈ (buySplitTicketInSession env cfg session fuel).2.2, Event.isExecutor e = true := by
  obtain ⟨p, -, htr, -⟩ := buySplitTicketInSession_path env cfg session fuel
  rw [htr]
  exact Path.trace_executor p

/-- C5: when the wallet host resolves, `waitForSession` yields a session and the
caller's context is canceled before the executor has sent its result,
`buySplitTicket` does not return while `buySplitTicketInSession` is still
running; once the executor has returned (whatever it returned),
`buySplitTicket` returns the caller's context error, every event of the
executor precedes the closing of the clients, the matcher client and the
wallet client are each closed exactly once, and no error report is sent to the
matcher. -/
theorem buySplitTicket_caller_canceled (env : BuyEnv) (cfg cfg1 : Config) (session : Session)
    (fuel : Nat)
    (hhost : (resolveWalletHost env cfg).1 = .ok cfg1)
    (hwait : (waitForSession env.wait cfg1).1 = .matched session)
    (hdone : env.ctxDoneFirst = true) :
    ((buySplitTicketInSession env.session cfg1 session fuel).1 = .pending →
      (buySplitTicket env cfg fuel).1 = .pending) ∧
    (∀ err, (buySplitTicketInSession env.session cfg1 session fuel).1 = .returned err →
      (buySplitTicket env cfg fuel).1 = .returned (some env.ctxErr) ∧
      (buySplitTicket env cfg fuel).2 =
        (resolveWalletHost env cfg).2 ++ (waitForSession env.wait cfg1).2 ++
          ((buySplitTicketInSession env.session cfg1 session fuel).2.2 ++
            [.cancelBuy, .mcClose, .wcClose]) ∧
      (buySplitTicket env cfg fuel).2.count .mcClose = 1 ∧
      (buySplitTicket env cfg fuel).2.count .wcClose = 1 ∧
      (buySplitTicket env cfg fuel).2.filter Event.isErrorReport = []) := by
  constructor
  · intro hp
    simp [buySplitTicket, hhost, hwait, runSession, hp]
  · intro err hr
    have htr : buySplitTicket env cfg fuel = (.returned (some env.ctxErr),
        (resolveWalletHost env cfg).2 ++ (waitForSession env.wait cfg1).2 ++
          ((buySplitTicketInSession env.session cfg1 session fuel).2.2 ++
            [.cancelBuy, .mcClose, .wcClose])) := by
      simp [buySplitTicket, hhost, hwait, runSession, hr, hdone]
    obtain ⟨a1, a2, a3, -, -⟩ := setup_quiet _ (resolveWalletHost_setup env cfg)
    obtain ⟨b1, b2, b3, -, -⟩ := setup_quiet _ (waitForSession_setup env.wait cfg1)
    obtain ⟨c1, c2, c3, -⟩ :=
      executor_quiet _ (buySplitTicketInSession_executor env.session cfg1 session fuel)
    rw [htr]
    refine ⟨rfl, rfl, ?_, ?_, ?_⟩
    · simp only [List.count_append, a1, b1, c1]
      decide
    · simp only [List.count_append, a2, b2, c2]
      decide
    · simp only [List.filter_append, a3, b3, c3]
      decide

/-- Witness of C5 on `canceledBuyEnv`, whose executor returns nil after one
poll. -/
theorem buySplitTicket_caller_canceled_witness :
    (buySplitTicket canceledBuyEnv sampleCfg 1).1 =
      .returned (some canceledBuyEnv.ctxErr) ∧
    (buySplitTicket canceledBuyEnv sampleCfg 1).2 =
      (resolveWalletHost canceledBuyEnv sampleCfg).2 ++
        (waitForSession canceledBuyEnv.wait sampleCfg).2 ++
        ((buySplitTicketInSession canceledBuyEnv.session sampleCfg sampleSession 1).2.2 ++
          [.cancelBuy, .mcClose, .wcClose]) ∧
    (buySplitTicket canceledBuyEnv sampleCfg 1).2.count .mcClose = 1 ∧
    (buySplitTicket canceledBuyEnv sampleCfg 1).2.count .wcClose = 1 ∧
    (buySplitTicket canceledBuyEnv sampleCfg 1).2.filter Event.isErrorReport = [] :=
  (buySplitTicket_caller_canceled canceledBuyEnv sampleCfg sampleCfg sampleSession 1
    rfl rfl rfl).2 none (by decide)

theorem runSession_facts (env : BuyEnv) (cfg : Config) (session : Session) (fuel : Nat) :
    (runSession env cfg session fuel).2.filter Event.isBuyingError = [] ∧
    (runSession env cfg session fuel).2.count successStage ≤ 1 ∧
    ((runSession env cfg session fuel).1 = .returned none →
      (runSession env cfg session fuel).2.count successStage = 1) ∧
    (env.ctxDoneFirst = false → ∀ err,
      (runSession env cfg session fuel).1 = .returned (some err) →
      (runSession env cfg session fuel).2.count successStage = 0) := by
  obtain ⟨p, ho, htr, -⟩ := buySplitTicketInSession_path env.session cfg session fuel
  obtain ⟨-, -, -, c4⟩ := executor_quiet _ (Path.trace_executor p)
  have hc := Path.count_success p
  have hrep : ∀ (s : Session) (err : Option GoError),
      (errorReport cfg s err).filter Event.isBuyingError = [] ∧
      (errorReport cfg s err).count successStage = 0 := by
    intro s err
    cases err with
    | none => exact ⟨rfl, rfl⟩
    | some e =>
      simp only [errorReport]
      by_cases h : (!e.isUnreportable && !cfg.SkipReportErrorsToSvc) = true
      · rw [if_pos h]
        exact ⟨rfl, List.count_eq_zero.mpr (by simp [successStage])⟩
      · rw [if_neg h]
        exact ⟨rfl, rfl⟩
  have hend : [Event.cancelBuy, Event.mcClose, Event.wcClose].filter Event.isBuyingError = []
      ∧ [Event.cancelBuy, Event.mcClose, Event.wcClose].count successStage = 0 :=
    ⟨rfl, rfl⟩
  unfold runSession
  generalize buySplitTicketInSession env.session cfg session fuel = run at ho htr ⊢
  obtain ⟨o, s1, tr⟩ := run
  simp only at ho htr
  subst ho htr
  simp only
  cases hout : p.outcome with
  | pending =>
    simp only [hout] at hc
    simp [c4, hc]
  | returned err =>
    simp only [hout] at hc
    dsimp only
    by_cases hd : env.ctxDoneFirst = true
    · rw [if_pos hd]
      simp only [List.filter_append, List.count_append, c4, hend.1, hend.2, hc,
        List.append_nil, Nat.add_zero]
      cases err with
      | none => simp [hd]
      | some e => simp [hd]
    · rw [if_neg hd]
      simp only [List.filter_append, List.count_append, c4, hend.1, hend.2, hc,
        (hrep s1 err).1, (hrep s1 err).2, List.append_nil, Nat.add_zero]
      cases err with
      | none => simp
      | some e => simp

theorem buySplitTicket_facts (env : BuyEnv) (cfg : Config) (fuel : Nat) :
    (buySplitTicket env cfg fuel).2.filter Event.isBuyingError = [] ∧
    (buySplitTicket env cfg fuel).2.count successStage ≤ 1 ∧
    ((buySplitTicket env cfg fuel).1 = .returned none →
      (buySplitTicket env cfg fuel).2.count successStage = 1) ∧
    (env.ctxDoneFirst = false → ∀ err,
      (buySplitTicket env cfg fuel).1 = .returned (some err) →
      (buySplitTicket env cfg fuel).2.count successStage = 0) := by
  obtain ⟨-, -, -, a4, a5⟩ := setup_quiet _ (resolveWalletHost_setup env cfg)
  simp only [buySplitTicket]
  cases hhost : (resolveWalletHost env cfg).1 with
  | error e =>
    dsimp only
    rw [a4, a5]
    simp
  | ok cfg1 =>
    obtain ⟨-, -, -, b4, b5⟩ := setup_quiet _ (waitForSession_setup env.wait cfg1)
    dsimp only
    cases hwait : (waitForSession env.wait cfg1).1 with
    | blocked =>
      dsimp only
      rw [List.filter_append, List.count_append, a4, a5, b4, b5]
      simp
    | failed e =>
      dsimp only
      rw [List.filter_append, List.count_append, a4, a5, b4, b5]
      simp
    | matched session =>
      obtain ⟨r1, r2, r3, r4⟩ := runSession_facts env cfg1 session fuel
      dsimp only
      simp only [List.filter_append, List.count_append, a4, a5, b4, b5, r1, List.append_nil,
        Nat.zero_add, true_and]
      exact ⟨r2, r3, r4⟩

/-- C10 fails as stated: on `canceledBuyEnv` the executor completes and reports
`StageSessionEndedSuccessfully`, the `select` of `buySplitTicket` takes the
caller's cancellation, and `BuySplitTicket` returns the context error and calls
`reportBuyingError` with it: the progress sink observes both terminal
outcomes. -/
theorem BuySplitTicket_both_outcomes :
    (BuySplitTicket canceledBuyEnv sampleCfg 1).1 =
      .returned (some (.base "context canceled")) ∧
    (BuySplitTicket canceledBuyEnv sampleCfg 1).2.count successStage = 1 ∧
    (BuySplitTicket canceledBuyEnv sampleCfg 1).2.filter Event.isBuyingError =
      [.reportBuyingError (.base "context canceled")] := by
  decide

/-- C10, amended: in every run of `BuySplitTicket` that returns,
`reportBuyingError` is called exactly once, with the returned error, when an
error is returned, and never when nil is returned, in which case
`StageSessionEndedSuccessfully` has been reported exactly once; the success
stage is never reported twice; and when the `select` of `buySplitTicket`
receives the executor's result (the caller's cancellation does not come first),
a run returning an error never reports the success stage. -/
theorem BuySplitTicket_terminal_outcomes (env : BuyEnv) (cfg : Config) (fuel : Nat) :
    (∀ err, (BuySplitTicket env cfg fuel).1 = .returned (some err) →
      (BuySplitTicket env cfg fuel).2.filter Event.isBuyingError =
        [.reportBuyingError err]) ∧
    ((BuySplitTicket env cfg fuel).1 = .returned none →
      (BuySplitTicket env cfg fuel).2.filter Event.isBuyingError = [] ∧
      (BuySplitTicket env cfg fuel).2.count successStage = 1) ∧
    (BuySplitTicket env cfg fuel).2.count successStage ≤ 1 ∧
    (env.ctxDoneFirst = false → ∀ err,
      (BuySplitTicket env cfg fuel).1 = .returned (some err) →
      (BuySplitTicket env cfg fuel).2.count successStage = 0) := by
  obtain ⟨f1, f2, f3, f4⟩ := buySplitTicket_facts env cfg fuel
  have hstart : [Event.reportStage .StageStarting].filter Event.isBuyingError = [] ∧
      [Event.reportStage .StageStarting].count successStage = 0 := ⟨rfl, rfl⟩
  have hbe : ∀ e, [Event.reportBuyingError e].filter Event.isBuyingError =
      [.reportBuyingError e] ∧ [Event.reportBuyingError e].count successStage = 0 :=
    fun e => ⟨rfl, List.count_eq_zero.mpr (by simp [successStage])⟩
  simp only [BuySplitTicket]
  generalize buySplitTicket env cfg fuel = r at f1 f2 f3 f4 ⊢
  obtain ⟨o, tr⟩ := r
  simp only at f1 f2 f3 f4
  rcases o with (_ | e) | _
  · dsimp only
    simp only [List.filter_append, List.count_append, hstart.1, hstart.2, f1, f3 rfl]
    simp
  · dsimp only
    simp only [List.filter_append, List.count_append, hstart.1, hstart.2, f1, (hbe e).1,
      (hbe e).2]
    refine ⟨?_, ?_, ?_, ?_⟩
    · intro err h
      simp only [Outcome.returned.injEq, Option.some.injEq] at h
      simp [h]
    · intro h
      simp at h
    · simpa using f2
    · intro hd err _
      simpa using f4 hd e rfl
  · dsimp only
    simp only [List.filter_append, List.count_append, hstart.1, hstart.2, f1]
    refine ⟨?_, ?_, ?_, ?_⟩
    · intro err h
      simp at h
    · intro h
      simp at h
    · simpa using f2
    · intro hd err h
      simp at h

/-- Witness of the amended C10: on `okBuyEnv` the run returns nil, reports the
success stage once and no buying error; on `expiredBuyEnv` it returns the
tagged error of the publication wait, reports it once and never reports the
success stage. -/
theorem BuySplitTicket_terminal_outcomes_witness :
    ((BuySplitTicket okBuyEnv sampleCfg 1).2.filter Event.isBuyingError = [] ∧
      (BuySplitTicket okBuyEnv sampleCfg 1).2.count successStage = 1) ∧
    (BuySplitTicket expiredBuyEnv sampleCfg 1).2.filter Event.isBuyingError =
      [.reportBuyingError expiredWaitError] ∧
    (BuySplitTicket expiredBuyEnv sampleCfg 1).2.count successStage = 0 :=
  ⟨(BuySplitTicket_terminal_outcomes okBuyEnv sampleCfg 1).2.1 (by decide),
    (BuySplitTicket_terminal_outcomes expiredBuyEnv sampleCfg 1).1 expiredWaitError
      (by decide),
    (BuySplitTicket_terminal_outcomes expiredBuyEnv sampleCfg 1).2.2.2 rfl expiredWaitError
      (by decide)⟩


theorem wrapInt64_add (a b : Int) : wrapInt64 (wrapInt64 a + b) = wrapInt64 (a + b) := by
  unfold wrapInt64
  omega

theorem wrapInt64_idem (x : Int) : wrapInt64 (wrapInt64 x) = wrapInt64 x := by
  unfold wrapInt64
  omega

theorem wrapInt64_of_range (x : Int) (hlo : -(2 ^ 63) ≤ x) (hhi : x < 2 ^ 63) :
    wrapInt64 x = x := by
  unfold wrapInt64
  omega

theorem foldl_addAmountIn (m : OutPoint → Option UtxoEntry) (inputs : List TxIn) :
    ∀ total : Int, wrapInt64 total = total →
      inputs.foldl (addAmountIn m) total = wrapInt64 (total + sumOfInputs m inputs) := by
  induction inputs with
  | nil =>
    intro total h
    simp [sumOfInputs, h]
  | cons txIn rest ih =>
    intro total h
    cases hm : m txIn.PreviousOutPoint with
    | none =>
      have hstep : addAmountIn m total txIn = total := by simp [addAmountIn, hm]
      have hsum : sumOfInputs m (txIn :: rest) = sumOfInputs m rest := by
        simp [sumOfInputs, amountOfInput, hm]
      rw [List.foldl_cons, hstep, hsum]
      exact ih total h
    | some entry =>
      have hstep : addAmountIn m total txIn = wrapInt64 (total + entry.Value) := by
        simp [addAmountIn, hm]
      have hsum : sumOfInputs m (txIn :: rest) = entry.Value + sumOfInputs m rest := by
        simp [sumOfInputs, amountOfInput, hm]
      rw [List.foldl_cons, hstep, hsum, ih _ (wrapInt64_idem _), wrapInt64_add,
        Int.add_assoc]

theorem sumOfInputs_resolved (m : OutPoint → Option UtxoEntry) (inputs : List TxIn) :
    sumOfInputs m inputs = ((resolvedEntries m inputs).map UtxoEntry.Value).sum := by
  induction inputs with
  | nil => rfl
  | cons txIn rest ih =>
    unfold sumOfInputs at ih ⊢
    cases hm : m txIn.PreviousOutPoint with
    | none => simp [resolvedEntries, amountOfInput, hm] at ih ⊢; exact ih
    | some entry => simp [resolvedEntries, amountOfInput, hm] at ih ⊢; exact ih

theorem resolvedEntries_length_le (m : OutPoint → Option UtxoEntry) (inputs : List TxIn) :
    (resolvedEntries m inputs).length ≤ inputs.length := by
  unfold resolvedEntries
  exact List.length_filterMap_le _ _

theorem resolvedEntries_full_iff (m : OutPoint → Option UtxoEntry) (inputs : List TxIn) :
    (resolvedEntries m inputs).length = inputs.length ↔
      ∀ txIn ∈ inputs, (m txIn.PreviousOutPoint).isSome = true := by
  induction inputs with
  | nil => simp [resolvedEntries]
  | cons txIn rest ih =>
    have hle := resolvedEntries_length_le m rest
    cases hm : m txIn.PreviousOutPoint with
    | none =>
      have hlen : (resolvedEntries m (txIn :: rest)).length = (resolvedEntries m rest).length := by
        simp [resolvedEntries, List.filterMap_cons, hm]
      rw [hlen]
      constructor
      · intro h
        simp only [List.length_cons] at h
        omega
      · intro h
        have := h txIn (List.mem_cons_self _ _)
        simp [hm] at this
    | some entry =>
      have hlen : (resolvedEntries m (txIn :: rest)).length =
          (resolvedEntries m rest).length + 1 := by
        simp [resolvedEntries, List.filterMap_cons, hm]
      rw [hlen]
      simp only [List.length_cons, Nat.add_right_cancel_iff, List.mem_cons, forall_eq_or_imp,
        hm, Option.isSome_some, true_and]
      exact ih

theorem saveParticipants_writes (ps : List buyerSessionParticipant) :
    (saveParticipants ps).2.all SaveEvent.isWrite = true := by
  induction ps with
  | nil => rfl
  | cons p ps ih =>
    unfold saveParticipants
    cases p.ticket.Bytes with
    | error e => rfl
    | ok tb =>
      cases p.revocation.Bytes with
      | error e => rfl
      | ok rb =>
        simp only [List.all_append, ih, Bool.and_true]
        rfl

theorem sessionOuts_writes (session : Session) (tb sb rb : List Nat) :
    (sessionOuts session tb sb rb).all SaveEvent.isWrite = true := by
  unfold sessionOuts
  simp only [List.all_append, List.all_map, Bool.and_eq_true]
  refine ⟨⟨rfl, ?_⟩, rfl⟩
  simp [List.all_eq_true, SaveEvent.isWrite]

theorem saveBody_writes (session : Session) (tb : List Nat) :
    ∀ e ∈ (saveBody session tb).2, SaveEvent.isWrite e = true := by
  have h : (saveBody session tb).2.all SaveEvent.isWrite = true := by
    unfold saveBody
    cases session.fundedSplitTx.Bytes with
    | error e => rfl
    | ok sb =>
      cases session.selectedRevocation.Bytes with
      | error e => rfl
      | ok rb =>
        simp only [List.all_append, sessionOuts_writes, saveParticipants_writes, Bool.and_true]
  rw [List.all_eq_true] at h
  exact h

/-- C11: with `cfg.SaveSessionWriter` configured, `saveSession` calls
`StartWritingSession` once the selected ticket has serialised; when it returns
nil the trace is that call, the writes, and one closing
`SessionWritingFinished`; when it returns an error the trace is that call and
the writes made so far, with no `SessionWritingFinished` at all.  So on
`badSplitSession` (the funded split transaction fails to serialise) and on
`badParticipantSession` (a participant's revocation fails to serialise) the
session writer is started and never finished, whereas the file sink of the same
function is flushed, synced and closed on that error path. -/
theorem saveSession_writer_unfinished_on_error :
    (∀ (fs : FsEnv) (session : Session) (cfg : Config) (ticketBytes : List Nat),
      cfg.SaveSessionWriter = true →
      session.selectedTicket.Bytes = .ok ticketBytes →
      ((saveSession fs session cfg).1 = none →
        (saveSession fs session cfg).2 =
          [.StartWritingSession session.selectedTicket.TxHash] ++
            (saveBody session ticketBytes).2 ++ [.SessionWritingFinished]) ∧
      (∀ err, (saveSession fs session cfg).1 = some err →
        (saveSession fs session cfg).2 =
          [.StartWritingSession session.selectedTicket.TxHash] ++
            (saveBody session ticketBytes).2 ∧
        SaveEvent.SessionWritingFinished ∉ (saveSession fs session cfg).2) ∧
      (∀ e ∈ (saveBody session ticketBytes).2, SaveEvent.isWrite e = true)) ∧
    saveSession okFs badSplitSession sampleCfg =
      (some (.base "MsgTx.BtcEncode: unsupported transaction type"),
        [.StartWritingSession [7]]) ∧
    (saveSession okFs badParticipantSession sampleCfg).1 =
      some (.wrap (.base "MsgTx.BtcEncode: unsupported transaction type")
        "error encoding participant %d revocation") ∧
    (saveSession okFs badParticipantSession sampleCfg).2.count (.StartWritingSession [7]) = 1 ∧
    (saveSession okFs badParticipantSession sampleCfg).2.count .SessionWritingFinished = 0 ∧
    saveSession okFs badSplitSession fileCfg =
      (some (.base "MsgTx.BtcEncode: unsupported transaction type"),
        [.stat, .openFile, .flush, .sync, .close]) := by
  refine ⟨?_, by decide, by decide, by decide, by decide, by decide⟩
  intro fs session cfg ticketBytes hw htb
  have hbody := saveBody_writes session ticketBytes
  cases hb : (saveBody session ticketBytes).1 with
  | none =>
    have hs : saveSession fs session cfg =
        (none, [.StartWritingSession session.selectedTicket.TxHash] ++
          (saveBody session ticketBytes).2 ++ [.SessionWritingFinished]) := by
      simp [saveSession, htb, hw, hb]
    rw [hs]
    exact ⟨fun _ => rfl, fun err h => by simp at h, hbody⟩
  | some e =>
    have hs : saveSession fs session cfg =
        (some e, [.StartWritingSession session.selectedTicket.TxHash] ++
          (saveBody session ticketBytes).2) := by
      simp [saveSession, htb, hw, hb]
    rw [hs]
    refine ⟨fun h => by simp at h, fun err _ => ⟨rfl, ?_⟩, hbody⟩
    intro hmem
    simp only [List.mem_append, List.mem_singleton] at hmem
    rcases hmem with hmem | hmem
    · simp at hmem
    · have := hbody _ hmem
      simp [SaveEvent.isWrite] at this

/-- Witness of C11 on `sampleSession` (nil returned, the writer started and
finished) and on `badSplitSession` (error returned, the writer started and not
finished). -/
theorem saveSession_writer_unfinished_on_error_witness :
    (saveSession okFs sampleSession sampleCfg).2 =
      [.StartWritingSession sampleSession.selectedTicket.TxHash] ++
        (saveBody sampleSession [0]).2 ++ [.SessionWritingFinished] ∧
    ((saveSession okFs badSplitSession sampleCfg).2 =
        [.StartWritingSession badSplitSession.selectedTicket.TxHash] ++
          (saveBody badSplitSession [0]).2 ∧
      SaveEvent.SessionWritingFinished ∉ (saveSession okFs badSplitSession sampleCfg).2) ∧
    SaveEvent.isWrite (.out "====== General Info ======\n") = true :=
  ⟨(saveSession_writer_unfinished_on_error.1 okFs sampleSession sampleCfg [0] rfl rfl).1
      (by decide),
    (saveSession_writer_unfinished_on_error.1 okFs badSplitSession sampleCfg [0] rfl rfl).2.1
      (.base "MsgTx.BtcEncode: unsupported transaction type") (by decide),
    (saveSession_writer_unfinished_on_error.1 okFs sampleSession sampleCfg [0] rfl rfl).2.2
      _ (by decide)⟩

/-- C12 fails as stated: on `overflowSession` both split inputs resolve, to
entries of `2^62` atoms each, so that the sum of the entry values is `2^63`,
but `myTotalAmountIn` returns `-2^63`: the `int64` total wraps around. -/
theorem myTotalAmountIn_overflow :
    (∀ txIn ∈ overflowSession.splitInputs,
      overflowSession.splitTxUtxoMap txIn.PreviousOutPoint = some ⟨2 ^ 62⟩) ∧
    sumOfInputs overflowSession.splitTxUtxoMap overflowSession.splitInputs = 2 ^ 63 ∧
    myTotalAmountIn overflowSession = -(2 ^ 63) ∧
    myTotalAmountIn overflowSession ≠
      sumOfInputs overflowSession.splitTxUtxoMap overflowSession.splitInputs := by
  decide

/-- C12, amended: for every session `myTotalAmountIn` returns the sum, over
`session.splitInputs` in order and counting repeated outpoints each time, of
the `Value` of the `splitTxUtxoMap` entry of the input's previous outpoint, an
input without entry adding 0, reduced to the `int64` range by wraparound; it
is that sum itself whenever the sum lies in the `int64` range.  The sum is the
sum of the values of the resolving inputs' entries, which are as many as the
split inputs exactly when every split input resolves in the map, and the
result is 0 for an empty input list. -/
theorem myTotalAmountIn_wrapped_sum (session : Session) :
    myTotalAmountIn session =
      wrapInt64 (sumOfInputs session.splitTxUtxoMap session.splitInputs) ∧
    (-(2 ^ 63) ≤ sumOfInputs session.splitTxUtxoMap session.splitInputs →
      sumOfInputs session.splitTxUtxoMap session.splitInputs < 2 ^ 63 →
      myTotalAmountIn session = sumOfInputs session.splitTxUtxoMap session.splitInputs) ∧
    sumOfInputs session.splitTxUtxoMap session.splitInputs =
      ((resolvedEntries session.splitTxUtxoMap session.splitInputs).map UtxoEntry.Value).sum ∧
    ((resolvedEntries session.splitTxUtxoMap session.splitInputs).length =
        session.splitInputs.length ↔
      ∀ txIn ∈ session.splitInputs,
        (session.splitTxUtxoMap txIn.PreviousOutPoint).isSome = true) ∧
    (session.splitInputs = [] → myTotalAmountIn session = 0) := by
  have h : myTotalAmountIn session =
      wrapInt64 (sumOfInputs session.splitTxUtxoMap session.splitInputs) := by
    unfold myTotalAmountIn
    rw [foldl_addAmountIn _ _ 0 (by decide), Int.zero_add]
  refine ⟨h, fun hlo hhi => ?_, sumOfInputs_resolved _ _, resolvedEntries_full_iff _ _,
    fun hnil => ?_⟩
  · rw [h, wrapInt64_of_range _ hlo hhi]
  · simp [myTotalAmountIn, hnil]

/-- Witness of the amended C12: on `repeatedInputSession` the total is
`30 + 12 + 30 + 0 = 72`, and on `sampleSession`, which has no split input, it
is 0. -/
theorem myTotalAmountIn_wrapped_sum_witness :
    myTotalAmountIn repeatedInputSession = 72 ∧ myTotalAmountIn sampleSession = 0 :=
  ⟨((myTotalAmountIn_wrapped_sum repeatedInputSession).2.1 (by decide) (by decide)).trans
      (by decide),
    (myTotalAmountIn_wrapped_sum sampleSession).2.2.2.2 rfl⟩

end Buyer
